import Mathlib

/-!
# Framework::DirectInput::CManager

A shallow embedding of `src/src/directinput/Manager.cpp` (with the declarations of
`src/include/directinput/Manager.h`).

* `std::map<GUID, DevicePtr>` is a list of pairs kept in strictly ascending key order;
  iteration is list order.
* `std::unordered_map<uint32, InputEventHandler>` is a list of pairs with pairwise distinct
  keys.  The standard leaves its iteration order unspecified; the embedding iterates in
  insertion order, and `erase` keeps the relative order of the remaining entries.
* `uint32` is `Nat`, reduced modulo `2^32` where the source does arithmetic on it.
* The collaborators whose code is not part of `Manager.cpp` (the DirectInput provider, the
  `CDevice` classes, the handlers) are parameters.  `CDevice::ProcessEvents` is given the
  three-argument callback bound in `UpdateThreadProc`, so a device reports
  `(GUID, id, value)` triples and the GUID is the one the device passes.
* Every method threads the manager state, which carries the guard flag `m_updateMutex`
  and a log of the externally visible actions and of the accesses to the guarded members.
-/

namespace Framework.DirectInput

/-! ## Data model -/

/-- The data members of `CManager` whose accesses are recorded in the log. -/
inductive Member
  | m_devices
  | m_inputEventHandlers
  | m_nextInputEventHandlerId
  deriving DecidableEq, Repr

/-- One recorded step of a method: guard operations, accesses to a member (with the value of
the guard flag at that moment) and calls into the collaborators. -/
inductive Action (G H : Type)
  | EnterCriticalSection
  | LeaveCriticalSection
  | access (member : Member) (guardHeld : Bool)
  | ProcessEvents (device : G)
  | InputEventHandler (eventHandlerId : Nat) (handler : H) (device : G) (id value : Nat)
  | GetInfo (device : G)
  | GetObjectInfo (device : G) (id : Nat)
  | Sleep (ms : Nat)
  deriving DecidableEq, Repr

/-- The ways a method can end other than by returning. -/
inductive Error
  | runtime_error (what : String)
  | assertion_failed
  | device_error
  deriving DecidableEq, Repr

/-- What one call of `CDevice::ProcessEvents` does, seen from the manager: the
`(GUID, id, value)` triples it passes to the callback it is given, in order, whether it
then ends by raising instead of returning, and the device afterwards.  The GUID of a
triple is the device's own argument: the manager does not supply it. -/
structure ProcessEventsResult (G D : Type) where
  reported : List (G × Nat × Nat)
  raised : Bool
  next : D

/-- The collaborators of `CManager` whose code is not in `Manager.cpp`, taken as
parameters: the well-known keyboard identity `GUID_SysKeyboard`, the provider call
`IDirectInput8::CreateDevice` (`none` when `FAILED`, otherwise the opened device handle;
the provider may change state), the constructors of `CKeyboard` and `CJoystick`
(`directinput/Keyboard.h`, `directinput/Joystick.h`) and the three operations of `CDevice`
(`directinput/Device.h`).  Handles, windows and the contents of `DIDEVICEINSTANCE` and
`DIDEVICEOBJECTINSTANCE` are natural numbers. -/
structure Collaborators (G P D : Type) where
  GUID_SysKeyboard : G
  CreateDevice : P → G → Option Nat × P
  CKeyboard : Nat → Nat → D
  CJoystick : Nat → Nat → D
  ProcessEvents : D → ProcessEventsResult G D
  GetInfo : D → Nat → Bool × Nat
  GetObjectInfo : D → Nat → Nat → Bool × Nat

/-- The state of one `CManager` (`Manager.h`, private members), with the guard as a flag and
the log of recorded actions.  The thread handle and the stop flag belong to the scheduling
of `UpdateThreadProc` and are arguments of its embedding. -/
structure CManager (G P D H : Type) where
  m_directInput : P
  m_joystickInstances : List G
  m_devices : List (G × D)
  m_inputEventHandlers : List (Nat × H)
  m_nextInputEventHandlerId : Nat
  m_updateMutex : Bool
  log : List (Action G H)

/-- How a `void` method ends: the state it leaves and the error it raised, if any. -/
structure Outcome (G P D H : Type) where
  state : CManager G P D H
  error : Option Error

/-- How a metadata query ends: the state, the returned `bool` and what the out pointer
points at afterwards (`none` for a null pointer). -/
structure QueryResult (G P D H : Type) where
  state : CManager G P D H
  result : Bool
  out : Option Nat

variable {G P D H : Type}

/-! ## The two containers -/

/-- Embeds `std::map::find`: the mapped device, `none` for `std::end`. -/
def DeviceList.find [DecidableEq G] (deviceId : G) : List (G × D) → Option D
  | [] => none
  | e :: rest => if e.1 = deviceId then some e.2 else DeviceList.find deviceId rest

/-- Embeds `m_devices[key] = device` on `std::map`: assigns in place when the key is
present, inserts at its place in key order otherwise. -/
def DeviceList.assign [LinearOrder G] (key : G) (device : D) : List (G × D) → List (G × D)
  | [] => [(key, device)]
  | e :: rest =>
    if key < e.1 then (key, device) :: e :: rest
    else if e.1 < key then e :: DeviceList.assign key device rest
    else (key, device) :: rest

/-- Embeds `std::unordered_map::find`. -/
def InputEventHandlerMap.find (eventHandlerId : Nat) : List (Nat × H) → Option H
  | [] => none
  | e :: rest =>
    if e.1 = eventHandlerId then some e.2 else InputEventHandlerMap.find eventHandlerId rest

/-- Embeds `m_inputEventHandlers[eventHandlerId] = inputEventHandler` on
`std::unordered_map`: assigns in place when the key is present, adds an entry otherwise. -/
def InputEventHandlerMap.assign (eventHandlerId : Nat) (inputEventHandler : H) :
    List (Nat × H) → List (Nat × H)
  | [] => [(eventHandlerId, inputEventHandler)]
  | e :: rest =>
    if e.1 = eventHandlerId then (eventHandlerId, inputEventHandler) :: rest
    else e :: InputEventHandlerMap.assign eventHandlerId inputEventHandler rest

/-- Embeds `std::unordered_map::erase` at the position `find` returned for the key. -/
def InputEventHandlerMap.erase (eventHandlerId : Nat) : List (Nat × H) → List (Nat × H)
  | [] => []
  | e :: rest =>
    if e.1 = eventHandlerId then rest else e :: InputEventHandlerMap.erase eventHandlerId rest

/-! ## Guard and log primitives -/

/-- Appends one action to the log. -/
def CManager.record (a : Action G H) (s : CManager G P D H) : CManager G P D H :=
  { s with log := s.log ++ [a] }

/-- Embeds `EnterCriticalSection(&m_updateMutex)`. -/
def CManager.EnterCriticalSection (s : CManager G P D H) : CManager G P D H :=
  { s with m_updateMutex := true, log := s.log ++ [Action.EnterCriticalSection] }

/-- Embeds `LeaveCriticalSection(&m_updateMutex)`. -/
def CManager.LeaveCriticalSection (s : CManager G P D H) : CManager G P D H :=
  { s with m_updateMutex := false, log := s.log ++ [Action.LeaveCriticalSection] }

/-- Records a read or write of a member together with the guard flag at that moment. -/
def CManager.touch (member : Member) (s : CManager G P D H) : CManager G P D H :=
  { s with log := s.log ++ [Action.access member s.m_updateMutex] }

/-! ## Construction -/

/-- Embeds `CManager::EnumDevicesCallbackImpl`: `m_joystickInstances.push_back`. -/
def CManager.EnumDevicesCallbackImpl (guidInstance : G) (s : CManager G P D H) :
    CManager G P D H :=
  { s with m_joystickInstances := s.m_joystickInstances ++ [guidInstance] }

/-- Embeds `CManager::CManager`.  `directInput8Create` is the result of
`DirectInput8Create` (`none` when `FAILED`), `attached` the device instances that
`EnumDevices` passes to the callback, in order. -/
def CManager.ctor (directInput8Create : Option P) (attached : List G) :
    Except Error (CManager G P D H) :=
  match directInput8Create with
  | none => Except.error (Error.runtime_error "Couldn't create DirectInput8")
  | some directInput =>
    let s : CManager G P D H :=
      { m_directInput := directInput
        m_joystickInstances := []
        m_devices := []
        m_inputEventHandlers := []
        m_nextInputEventHandlerId := 1
        m_updateMutex := false
        log := [] }
    Except.ok (attached.foldl (fun s guidInstance => CManager.EnumDevicesCallbackImpl guidInstance s) s)

/-! ## Handler registry -/

/-- Embeds `CManager::RegisterInputEventHandler`; the post-increment of the `uint32`
counter wraps modulo `2^32`. -/
def CManager.RegisterInputEventHandler (inputEventHandler : H) (s : CManager G P D H) :
    Nat × CManager G P D H :=
  let eventHandlerId := s.m_nextInputEventHandlerId
  let s := CManager.touch Member.m_nextInputEventHandlerId s
  let s := { s with m_nextInputEventHandlerId := (s.m_nextInputEventHandlerId + 1) % 4294967296 }
  let s := CManager.EnterCriticalSection s
  let s := CManager.touch Member.m_inputEventHandlers s
  let s := { s with m_inputEventHandlers :=
    InputEventHandlerMap.assign eventHandlerId inputEventHandler s.m_inputEventHandlers }
  let s := CManager.LeaveCriticalSection s
  (eventHandlerId, s)

/-- Embeds `CManager::UnregisterInputEventHandler`; a failed `assert` ends the call with
`assertion_failed`, in the state reached at that point. -/
def CManager.UnregisterInputEventHandler (eventHandlerId : Nat) (s : CManager G P D H) :
    Outcome G P D H :=
  let s := CManager.EnterCriticalSection s
  let s := CManager.touch Member.m_inputEventHandlers s
  match InputEventHandlerMap.find eventHandlerId s.m_inputEventHandlers with
  | none => { state := s, error := some Error.assertion_failed }
  | some _ =>
    let s := { s with m_inputEventHandlers :=
      InputEventHandlerMap.erase eventHandlerId s.m_inputEventHandlers }
    let s := CManager.LeaveCriticalSection s
    { state := s, error := none }

/-! ## Device creation -/

/-- Embeds `CManager::CreateKeyboard`. -/
def CManager.CreateKeyboard [LinearOrder G] (env : Collaborators G P D) (window : Nat)
    (s : CManager G P D H) : Outcome G P D H :=
  let r := env.CreateDevice s.m_directInput env.GUID_SysKeyboard
  let s := { s with m_directInput := r.2 }
  match r.1 with
  | none => { state := s, error := some (Error.runtime_error "Couldn't create device.") }
  | some device =>
    let s := CManager.EnterCriticalSection s
    let s := CManager.touch Member.m_devices s
    let s := { s with m_devices :=
      DeviceList.assign env.GUID_SysKeyboard (env.CKeyboard device window) s.m_devices }
    let s := CManager.LeaveCriticalSection s
    { state := s, error := none }

/-- The loop of `CManager::CreateJoysticks` over the identities still to visit. -/
def CManager.CreateJoysticksLoop [LinearOrder G] (env : Collaborators G P D) (window : Nat) :
    List G → CManager G P D H → CManager G P D H
  | [], s => s
  | deviceGuid :: rest, s =>
    let r := env.CreateDevice s.m_directInput deviceGuid
    let s := { s with m_directInput := r.2 }
    match r.1 with
    | none => CManager.CreateJoysticksLoop env window rest s
    | some device =>
      let s := CManager.EnterCriticalSection s
      let s := CManager.touch Member.m_devices s
      let s := { s with m_devices :=
        DeviceList.assign deviceGuid (env.CJoystick device window) s.m_devices }
      let s := CManager.LeaveCriticalSection s
      CManager.CreateJoysticksLoop env window rest s

/-- Embeds `CManager::CreateJoysticks`. -/
def CManager.CreateJoysticks [LinearOrder G] (env : Collaborators G P D) (window : Nat)
    (s : CManager G P D H) : CManager G P D H :=
  CManager.CreateJoysticksLoop env window s.m_joystickInstances s

/-! ## Metadata queries -/

/-- Embeds `CManager::GetDeviceInfo`; `deviceInfo` is `none` for a null pointer. -/
def CManager.GetDeviceInfo [DecidableEq G] (env : Collaborators G P D) (deviceId : G)
    (deviceInfo : Option Nat) (s : CManager G P D H) : QueryResult G P D H :=
  match deviceInfo with
  | none => { state := s, result := false, out := none }
  | some info =>
    let s := CManager.touch Member.m_devices s
    match DeviceList.find deviceId s.m_devices with
    | none => { state := s, result := false, out := some info }
    | some device =>
      let s := CManager.record (Action.GetInfo deviceId) s
      let r := env.GetInfo device info
      { state := s, result := r.1, out := some r.2 }

/-- Embeds `CManager::GetDeviceObjectInfo`; `objectInfo` is `none` for a null pointer. -/
def CManager.GetDeviceObjectInfo [DecidableEq G] (env : Collaborators G P D) (deviceId : G)
    (id : Nat) (objectInfo : Option Nat) (s : CManager G P D H) : QueryResult G P D H :=
  match objectInfo with
  | none => { state := s, result := false, out := none }
  | some info =>
    let s := CManager.touch Member.m_devices s
    match DeviceList.find deviceId s.m_devices with
    | none => { state := s, result := false, out := some info }
    | some device =>
      let s := CManager.record (Action.GetObjectInfo deviceId id) s
      let r := env.GetObjectInfo device id info
      { state := s, result := r.1, out := some r.2 }

/-! ## Dispatch and the poll loop -/

/-- Embeds `CManager::CallInputEventHandlers`: one call of every entry of
`m_inputEventHandlers`, in iteration order. -/
def CManager.CallInputEventHandlers (device : G) (id value : Nat) (s : CManager G P D H) :
    CManager G P D H :=
  let s := CManager.touch Member.m_inputEventHandlers s
  s.m_inputEventHandlers.foldl
    (fun s e => CManager.record (Action.InputEventHandler e.1 e.2 device id value) s) s

/-- The callback `inputEventHandler` bound in `UpdateThreadProc`
(`CallInputEventHandlers` on its three placeholders), applied to every triple one
`ProcessEvents` call passes to it, in order. -/
def CManager.inputEventHandler (reported : List (G × Nat × Nat)) (s : CManager G P D H) :
    CManager G P D H :=
  reported.foldl (fun s ev => CManager.CallInputEventHandlers ev.1 ev.2.1 ev.2.2 s) s

/-- The result of the device loop of one cycle: the devices as the calls left them, the
state, and whether a `ProcessEvents` call raised. -/
structure DeviceLoopResult (G P D H : Type) where
  devices : List (G × D)
  state : CManager G P D H
  raised : Bool

/-- The `for` loop of `CManager::UpdateThreadProc` over the entries of `m_devices` still to
visit.  An error raised by `ProcessEvents` leaves the loop at once (nothing in
`UpdateThreadProc` catches it). -/
def CManager.deviceLoop (env : Collaborators G P D) :
    List (G × D) → CManager G P D H → DeviceLoopResult G P D H
  | [], s => { devices := [], state := s, raised := false }
  | e :: rest, s =>
    let s := CManager.record (Action.ProcessEvents e.1) s
    let r := env.ProcessEvents e.2
    let s := CManager.inputEventHandler r.reported s
    if r.raised then { devices := (e.1, r.next) :: rest, state := s, raised := true }
    else
      let l := CManager.deviceLoop env rest s
      { devices := (e.1, r.next) :: l.devices, state := l.state, raised := l.raised }

/-- One iteration of the `while` loop of `CManager::UpdateThreadProc` (one poll cycle). -/
def CManager.pollCycle (env : Collaborators G P D) (s : CManager G P D H) : Outcome G P D H :=
  let s := CManager.EnterCriticalSection s
  let s := CManager.touch Member.m_devices s
  let l := CManager.deviceLoop env s.m_devices s
  let s := { l.state with m_devices := l.devices }
  if l.raised then { state := s, error := some Error.device_error }
  else
    let s := CManager.LeaveCriticalSection s
    let s := CManager.record (Action.Sleep 16) s
    { state := s, error := none }

/-- Embeds `CManager::UpdateThreadProc`.  `cycles` is the number of times the loop reads
`m_updateThreadOver` as false before it reads it as true (the flag is set by the
destructor on the other thread). -/
def CManager.UpdateThreadProc (env : Collaborators G P D) :
    Nat → CManager G P D H → Outcome G P D H
  | 0, s => { state := s, error := none }
  | cycles + 1, s =>
    let r := CManager.pollCycle env s
    match r.error with
    | some err => { state := r.state, error := some err }
    | none => CManager.UpdateThreadProc env cycles r.state

/-! ## Well-formedness of the containers -/

/-- The representation invariant of `std::map`: keys strictly ascending. -/
def DeviceList.ordered [LinearOrder G] (t : List (G × D)) : Prop :=
  t.Pairwise (fun a b => a.1 < b.1)

instance DeviceList.decidableOrdered [LinearOrder G] (t : List (G × D)) :
    Decidable (DeviceList.ordered t) := by
  unfold DeviceList.ordered
  infer_instance

/-- The representation invariant of `std::unordered_map`: keys pairwise distinct. -/
def InputEventHandlerMap.distinct (m : List (Nat × H)) : Prop :=
  (m.map Prod.fst).Nodup

instance InputEventHandlerMap.decidableDistinct (m : List (Nat × H)) :
    Decidable (InputEventHandlerMap.distinct m) := by
  unfold InputEventHandlerMap.distinct
  infer_instance

/-! ## Observations on runs -/

/-- A call on the handler registry of one manager. -/
inductive RegistryCall (H : Type)
  | Register (inputEventHandler : H)
  | Unregister (eventHandlerId : Nat)

/-- The ids that the `RegisterInputEventHandler` calls of a sequence of registry calls
return, in order.  A failed `assert` in `UnregisterInputEventHandler` ends the run. -/
def CManager.returnedIds : List (RegistryCall H) → CManager G P D H → List Nat
  | [], _ => []
  | RegistryCall.Register inputEventHandler :: rest, s =>
    let r := CManager.RegisterInputEventHandler inputEventHandler s
    r.1 :: CManager.returnedIds rest r.2
  | RegistryCall.Unregister eventHandlerId :: rest, s =>
    let r := CManager.UnregisterInputEventHandler eventHandlerId s
    match r.error with
    | some _ => []
    | none => CManager.returnedIds rest r.state

/-- The number of `RegisterInputEventHandler` calls in a sequence of registry calls. -/
def RegistryCall.registrations : List (RegistryCall H) → Nat
  | [] => 0
  | RegistryCall.Register _ :: rest => RegistryCall.registrations rest + 1
  | RegistryCall.Unregister _ :: rest => RegistryCall.registrations rest

/-- The answers of the provider to the `CreateDevice` calls that the loop of
`CreateJoysticks` makes for a list of identities, starting from provider state `p`. -/
def openResults (env : Collaborators G P D) : P → List G → List (G × Option Nat)
  | _, [] => []
  | p, deviceGuid :: rest =>
    let r := env.CreateDevice p deviceGuid
    (deviceGuid, r.1) :: openResults env r.2 rest

/-- The `ProcessEvents` calls one cycle makes over a device table, each with the table
key of the device and the triples the call passes to the callback: the devices in table
order, up to and including the first whose call raises. -/
def reportedInCycle (env : Collaborators G P D) :
    List (G × D) → List (G × List (G × Nat × Nat))
  | [] => []
  | e :: rest =>
    let r := env.ProcessEvents e.2
    (e.1, r.reported) :: (if r.raised then [] else reportedInCycle env rest)

/-- One call of every registered handler with the given arguments, in registry order. -/
def dispatch (handlers : List (Nat × H)) (device : G) (id value : Nat) : List (Action G H) :=
  handlers.map (fun e => Action.InputEventHandler e.1 e.2 device id value)

/-- The handler calls that the reports of one cycle give rise to: every handler is called
with each reported triple as the device passed it. -/
def deliveries (handlers : List (Nat × H)) (reports : List (G × List (G × Nat × Nat))) :
    List (Action G H) :=
  reports.flatMap (fun r => r.2.flatMap (fun ev => dispatch handlers ev.1 ev.2.1 ev.2.2))

/-- Whether an action is a handler call. -/
def Action.isHandlerCall : Action G H → Bool
  | Action.InputEventHandler _ _ _ _ _ => true
  | _ => false

/-- Whether an action is a call of the handler stored under the given id. -/
def Action.isCallOf (eventHandlerId : Nat) : Action G H → Bool
  | Action.InputEventHandler k _ _ _ _ => decide (k = eventHandlerId)
  | _ => false

/-- Whether an action is a `ProcessEvents` call. -/
def Action.isProcessEvents : Action G H → Bool
  | Action.ProcessEvents _ => true
  | _ => false

/-- Whether an action is a call of a device's `GetInfo` or `GetObjectInfo`. -/
def Action.isMetadataCall : Action G H → Bool
  | Action.GetInfo _ => true
  | Action.GetObjectInfo _ _ => true
  | _ => false

/-- Whether an action respects the lock discipline: an access to `m_devices` or
`m_inputEventHandlers` or to the id counter does when the guard flag was set. -/
def Action.underGuard : Action G H → Bool
  | Action.access _ guardHeld => guardHeld
  | _ => true

/-- The actions the device loop of one cycle records over a device table, for a given guard
flag and registry: per device the `ProcessEvents` call, then per reported triple the read
of the registry and the handler calls; nothing after a call that raises. -/
def deviceLoopLog (env : Collaborators G P D) (guardHeld : Bool) (handlers : List (Nat × H)) :
    List (G × D) → List (Action G H)
  | [] => []
  | e :: rest =>
    Action.ProcessEvents e.1
      :: ((env.ProcessEvents e.2).reported.flatMap
            (fun ev => Action.access Member.m_inputEventHandlers guardHeld
              :: dispatch handlers ev.1 ev.2.1 ev.2.2)
          ++ (if (env.ProcessEvents e.2).raised then []
              else deviceLoopLog env guardHeld handlers rest))

/-! ## A scripted environment for concrete runs -/

/-- A device of the scripted environment: its kind, the handle and window it was built
from, and for each coming `ProcessEvents` call the triples it reports and whether it
raises. -/
structure MockDevice where
  joystick : Bool
  device : Nat
  window : Nat
  script : List (List (Nat × Nat × Nat) × Bool)
  deriving DecidableEq, Repr

/-- The behaviour attached to each device handle of the scripted environment.  Handles 1
and 3 belong to the device of identity 10, handle 2 to the device of identity 20; each
reports under its own identity. -/
def mockScript : Nat → List (List (Nat × Nat × Nat) × Bool)
  | 1 => [([(10, 3, 1)], false)]
  | 2 => [([(20, 7, 255)], false)]
  | 3 => [([], true), ([(10, 5, 5)], false)]
  | _ => []

/-- The scripted environment: identities and handles are numbers, the keyboard identity is
`0`, the provider state is the list of its coming `CreateDevice` answers. -/
def mock : Collaborators Nat (List (Option Nat)) MockDevice where
  GUID_SysKeyboard := 0
  CreateDevice := fun p _ =>
    match p with
    | [] => (none, [])
    | r :: rest => (r, rest)
  CKeyboard := fun device window =>
    { joystick := false, device := device, window := window, script := mockScript device }
  CJoystick := fun device window =>
    { joystick := true, device := device, window := window, script := mockScript device }
  ProcessEvents := fun d =>
    match d.script with
    | [] => { reported := [], raised := false, next := d }
    | x :: rest => { reported := x.1, raised := x.2, next := { d with script := rest } }
  GetInfo := fun d _ => (true, d.device)
  GetObjectInfo := fun _ id _ => (decide (id < 8), id)

/-- A manager of the scripted environment in the state the constructor leaves, with the
given provider answers and enumerated identities. -/
def mockManager (answers : List (Option Nat)) (attached : List Nat) :
    CManager Nat (List (Option Nat)) MockDevice Nat :=
  { m_directInput := answers
    m_joystickInstances := attached
    m_devices := []
    m_inputEventHandlers := []
    m_nextInputEventHandlerId := 1
    m_updateMutex := false
    log := [] }

/-! ## Lemmas on `std::map` -/

theorem DeviceList.find_eq_none_iff [DecidableEq G] (k : G) (t : List (G × D)) :
    DeviceList.find k t = none ↔ ∀ e ∈ t, e.1 ≠ k := by
  induction t with
  | nil => simp [DeviceList.find]
  | cons e rest ih =>
    by_cases h : e.1 = k
    · simp [DeviceList.find, h]
    · simp [DeviceList.find, h, ih]

theorem DeviceList.find_assign_self [LinearOrder G] (k : G) (v : D) (t : List (G × D)) :
    DeviceList.find k (DeviceList.assign k v t) = some v := by
  induction t with
  | nil => simp [DeviceList.assign, DeviceList.find]
  | cons e rest ih =>
    unfold DeviceList.assign
    by_cases h1 : k < e.1
    · simp [h1, DeviceList.find]
    · by_cases h2 : e.1 < k
      · simp [h1, h2, DeviceList.find, ne_of_lt h2, ih]
      · simp [h1, h2, DeviceList.find]

theorem DeviceList.find_assign_ne [LinearOrder G] (k g : G) (v : D) (t : List (G × D))
    (hne : g ≠ k) :
    DeviceList.find g (DeviceList.assign k v t) = DeviceList.find g t := by
  induction t with
  | nil => simp [DeviceList.assign, DeviceList.find, Ne.symm hne]
  | cons e rest ih =>
    unfold DeviceList.assign
    by_cases h1 : k < e.1
    · simp [h1, DeviceList.find, Ne.symm hne]
    · by_cases h2 : e.1 < k
      · simp [h1, h2, DeviceList.find, ih]
      · have hek : e.1 = k := le_antisymm (not_lt.mp h1) (not_lt.mp h2)
        simp [h1, h2, DeviceList.find, hek, Ne.symm hne]

theorem DeviceList.assign_filter_key [LinearOrder G] (q : G → Bool) (k : G) (v : D)
    (t : List (G × D)) (hq : q k = false) :
    (DeviceList.assign k v t).filter (fun e => q e.1) = t.filter (fun e => q e.1) := by
  induction t with
  | nil => simp [DeviceList.assign, hq]
  | cons e rest ih =>
    unfold DeviceList.assign
    by_cases h1 : k < e.1
    · simp [h1, hq]
    · by_cases h2 : e.1 < k
      · simp [h1, h2, List.filter_cons, ih]
      · have hek : e.1 = k := le_antisymm (not_lt.mp h1) (not_lt.mp h2)
        simp [h1, h2, List.filter_cons, hek, hq]

theorem DeviceList.mem_assign [LinearOrder G] (k : G) (v : D) (t : List (G × D))
    (x : G × D) (hx : x ∈ DeviceList.assign k v t) : x = (k, v) ∨ x ∈ t := by
  induction t with
  | nil => simpa [DeviceList.assign] using hx
  | cons e rest ih =>
    unfold DeviceList.assign at hx
    by_cases h1 : k < e.1
    · simp only [h1, if_true, List.mem_cons] at hx
      rcases hx with hx | hx | hx
      · exact Or.inl hx
      · exact Or.inr (by simp [hx])
      · exact Or.inr (by simp [hx])
    · by_cases h2 : e.1 < k
      · simp only [h1, h2, if_true, if_false, List.mem_cons] at hx
        rcases hx with hx | hx
        · exact Or.inr (by simp [hx])
        · rcases ih hx with h | h
          · exact Or.inl h
          · exact Or.inr (by simp [h])
      · simp only [h1, h2, if_false, List.mem_cons] at hx
        rcases hx with hx | hx
        · exact Or.inl hx
        · exact Or.inr (by simp [hx])

theorem DeviceList.assign_ordered [LinearOrder G] (k : G) (v : D) (t : List (G × D))
    (ht : DeviceList.ordered t) : DeviceList.ordered (DeviceList.assign k v t) := by
  induction t with
  | nil => simp [DeviceList.assign, DeviceList.ordered]
  | cons e rest ih =>
    unfold DeviceList.ordered at ht ih ⊢
    rw [List.pairwise_cons] at ht
    unfold DeviceList.assign
    by_cases h1 : k < e.1
    · simp only [h1, if_true]
      refine List.pairwise_cons.mpr ⟨?_, List.pairwise_cons.mpr ht⟩
      intro x hx
      rcases List.mem_cons.mp hx with hx | hx
      · simpa [hx] using h1
      · exact lt_trans h1 (ht.1 x hx)
    · by_cases h2 : e.1 < k
      · simp only [h1, h2, if_true, if_false]
        refine List.pairwise_cons.mpr ⟨?_, ih ht.2⟩
        intro x hx
        rcases DeviceList.mem_assign k v rest x hx with hx | hx
        · simpa [hx] using h2
        · exact ht.1 x hx
      · have hek : e.1 = k := le_antisymm (not_lt.mp h1) (not_lt.mp h2)
        simp only [h1, h2, if_false]
        refine List.pairwise_cons.mpr ⟨?_, ht.2⟩
        intro x hx
        have := ht.1 x hx
        simpa [hek] using this

theorem DeviceList.assign_filter_self [LinearOrder G] (k : G) (v : D) (t : List (G × D))
    (ht : DeviceList.ordered t) :
    (DeviceList.assign k v t).filter (fun e => decide (e.1 = k)) = [(k, v)] := by
  induction t with
  | nil => simp [DeviceList.assign]
  | cons e rest ih =>
    unfold DeviceList.ordered at ht ih
    rw [List.pairwise_cons] at ht
    unfold DeviceList.assign
    by_cases h1 : k < e.1
    · simp only [h1, if_true]
      rw [List.filter_cons_of_pos (by simp)]
      congr 1
      apply List.filter_eq_nil_iff.mpr
      intro x hx
      rcases List.mem_cons.mp hx with hx | hx
      · simpa [hx] using ne_of_gt h1
      · simpa using ne_of_gt (lt_trans h1 (ht.1 x hx))
    · by_cases h2 : e.1 < k
      · simp only [h1, h2, if_true, if_false]
        rw [List.filter_cons_of_neg (by simpa using ne_of_lt h2)]
        exact ih ht.2
      · have hek : e.1 = k := le_antisymm (not_lt.mp h1) (not_lt.mp h2)
        simp only [h1, h2, if_false]
        rw [List.filter_cons_of_pos (by simp)]
        congr 1
        apply List.filter_eq_nil_iff.mpr
        intro x hx
        have := ht.1 x hx
        simpa using ne_of_gt (hek ▸ this)

/-! ## Metadata queries on an unknown identity -/

/-- C6: for every manager state and every identity that is not a key of `m_devices`,
`GetDeviceInfo` and `GetDeviceObjectInfo` (for every object id and every out pointer, null
or not) return `false`, leave every member of the manager and the out structure as they
were, and call no device's `GetInfo` or `GetObjectInfo`: the only action they may add to
the log is their own lookup in `m_devices`. -/
theorem query_unknown_identity_not_found [DecidableEq G] (env : Collaborators G P D)
    (s : CManager G P D H) (deviceId : G) (id : Nat) (deviceInfo objectInfo : Option Nat)
    (habsent : DeviceList.find deviceId s.m_devices = none) :
    ((CManager.GetDeviceInfo env deviceId deviceInfo s).result = false
      ∧ (CManager.GetDeviceInfo env deviceId deviceInfo s).out = deviceInfo
      ∧ (CManager.GetDeviceInfo env deviceId deviceInfo s).state.m_devices = s.m_devices
      ∧ (CManager.GetDeviceInfo env deviceId deviceInfo s).state.m_inputEventHandlers
          = s.m_inputEventHandlers
      ∧ (CManager.GetDeviceInfo env deviceId deviceInfo s).state.m_updateMutex = s.m_updateMutex
      ∧ (CManager.GetDeviceInfo env deviceId deviceInfo s).state.log.filter Action.isMetadataCall
          = s.log.filter Action.isMetadataCall)
    ∧ ((CManager.GetDeviceObjectInfo env deviceId id objectInfo s).result = false
      ∧ (CManager.GetDeviceObjectInfo env deviceId id objectInfo s).out = objectInfo
      ∧ (CManager.GetDeviceObjectInfo env deviceId id objectInfo s).state.m_devices = s.m_devices
      ∧ (CManager.GetDeviceObjectInfo env deviceId id objectInfo s).state.m_inputEventHandlers
          = s.m_inputEventHandlers
      ∧ (CManager.GetDeviceObjectInfo env deviceId id objectInfo s).state.m_updateMutex
          = s.m_updateMutex
      ∧ (CManager.GetDeviceObjectInfo env deviceId id objectInfo s).state.log.filter
          Action.isMetadataCall = s.log.filter Action.isMetadataCall) := by
  constructor
  · cases deviceInfo with
    | none => simp [CManager.GetDeviceInfo]
    | some info =>
      simp [CManager.GetDeviceInfo, CManager.touch, habsent, List.filter_append,
        Action.isMetadataCall]
  · cases objectInfo with
    | none => simp [CManager.GetDeviceObjectInfo]
    | some info =>
      simp [CManager.GetDeviceObjectInfo, CManager.touch, habsent, List.filter_append,
        Action.isMetadataCall]

/-- C6, at a concrete input: a table holding identities 10 and 20 is asked for identity 15. -/
theorem query_unknown_identity_not_found_witness :
    (CManager.GetDeviceInfo mock 15 (some 0)
        (CManager.CreateJoysticks mock 5 (mockManager [some 1, some 2] [10, 20]))).result = false
    ∧ (CManager.GetDeviceObjectInfo mock 15 3 (some 0)
        (CManager.CreateJoysticks mock 5 (mockManager [some 1, some 2] [10, 20]))).result
        = false := by
  have h := query_unknown_identity_not_found mock
    (CManager.CreateJoysticks mock 5 (mockManager [some 1, some 2] [10, 20])) 15 3
    (some 0) (some 0) (by decide)
  exact ⟨h.1.1, h.2.1⟩

/-! ## Unregistering an id that is not registered -/

/-- C7: for every registry and every id absent from it, `UnregisterInputEventHandler` does
not return: it ends in the failed `assert`, with the registry untouched. -/
theorem unregister_absent_asserts (s : CManager G P D H) (eventHandlerId : Nat)
    (habsent : InputEventHandlerMap.find eventHandlerId s.m_inputEventHandlers = none) :
    (CManager.UnregisterInputEventHandler eventHandlerId s).error = some Error.assertion_failed
    ∧ (CManager.UnregisterInputEventHandler eventHandlerId s).error ≠ none
    ∧ (CManager.UnregisterInputEventHandler eventHandlerId s).state.m_inputEventHandlers
        = s.m_inputEventHandlers := by
  simp [CManager.UnregisterInputEventHandler, CManager.touch, CManager.EnterCriticalSection,
    habsent]

/-- C7, at a concrete input: id 2 was never returned by a manager with one registration. -/
theorem unregister_absent_asserts_witness :
    (CManager.UnregisterInputEventHandler 2
        (CManager.RegisterInputEventHandler 77 (mockManager [] [])).2).error
      = some Error.assertion_failed :=
  (unregister_absent_asserts
    (CManager.RegisterInputEventHandler 77 (mockManager [] [])).2 2 (by decide)).1

/-! ## Keyboard creation -/

/-- C8: `CreateKeyboard` ends in an error exactly when the provider's `CreateDevice` for
`GUID_SysKeyboard` fails; the error is then the `runtime_error` thrown to the caller, and
the device table, the registry and the guard are what they were before the call. -/
theorem createKeyboard_fails_iff [LinearOrder G] (env : Collaborators G P D) (window : Nat)
    (s : CManager G P D H) :
    ((CManager.CreateKeyboard env window s).error ≠ none
        ↔ (env.CreateDevice s.m_directInput env.GUID_SysKeyboard).1 = none)
    ∧ ((env.CreateDevice s.m_directInput env.GUID_SysKeyboard).1 = none →
        (CManager.CreateKeyboard env window s).error
            = some (Error.runtime_error "Couldn't create device.")
          ∧ (CManager.CreateKeyboard env window s).state.m_devices = s.m_devices
          ∧ (CManager.CreateKeyboard env window s).state.m_inputEventHandlers
              = s.m_inputEventHandlers
          ∧ (CManager.CreateKeyboard env window s).state.m_updateMutex = s.m_updateMutex
          ∧ (CManager.CreateKeyboard env window s).state.log = s.log) := by
  cases h : (env.CreateDevice s.m_directInput env.GUID_SysKeyboard).1 with
  | none => simp [CManager.CreateKeyboard, h]
  | some device => simp [CManager.CreateKeyboard, h]

/-- C8, at a concrete input: the provider refuses the keyboard and a table holding two
joysticks stays as it was. -/
theorem createKeyboard_fails_iff_witness :
    (CManager.CreateKeyboard mock 5
        (CManager.CreateJoysticks mock 5 (mockManager [some 1, some 2, none] [10, 20]))).error
      = some (Error.runtime_error "Couldn't create device.")
    ∧ (CManager.CreateKeyboard mock 5 (CManager.CreateJoysticks mock 5
        (mockManager [some 1, some 2, none] [10, 20]))).state.m_devices
      = (CManager.CreateJoysticks mock 5
        (mockManager [some 1, some 2, none] [10, 20])).m_devices := by
  have h := (createKeyboard_fails_iff mock 5
    (CManager.CreateJoysticks mock 5 (mockManager [some 1, some 2, none] [10, 20]))).2
    (by decide)
  exact ⟨h.1, h.2.1⟩

/-- C4: for every (ordered) device table, two `CreateKeyboard` calls whose `CreateDevice`
both succeed both return, and the table afterwards is ordered, holds exactly one entry
under `GUID_SysKeyboard`, namely the keyboard built from the second handle and window, and
holds under every other identity exactly the entries it held before. -/
theorem createKeyboard_twice_replaces [LinearOrder G] (env : Collaborators G P D)
    (window1 window2 device1 device2 : Nat) (s : CManager G P D H)
    (hordered : DeviceList.ordered s.m_devices)
    (hopen1 : (env.CreateDevice s.m_directInput env.GUID_SysKeyboard).1 = some device1)
    (hopen2 : (env.CreateDevice (env.CreateDevice s.m_directInput env.GUID_SysKeyboard).2
        env.GUID_SysKeyboard).1 = some device2) :
    (CManager.CreateKeyboard env window1 s).error = none
    ∧ (CManager.CreateKeyboard env window2 (CManager.CreateKeyboard env window1 s).state).error
        = none
    ∧ DeviceList.ordered
        (CManager.CreateKeyboard env window2
          (CManager.CreateKeyboard env window1 s).state).state.m_devices
    ∧ (CManager.CreateKeyboard env window2
          (CManager.CreateKeyboard env window1 s).state).state.m_devices.filter
          (fun e => decide (e.1 = env.GUID_SysKeyboard))
        = [(env.GUID_SysKeyboard, env.CKeyboard device2 window2)]
    ∧ DeviceList.find env.GUID_SysKeyboard
          (CManager.CreateKeyboard env window2
            (CManager.CreateKeyboard env window1 s).state).state.m_devices
        = some (env.CKeyboard device2 window2)
    ∧ (CManager.CreateKeyboard env window2
          (CManager.CreateKeyboard env window1 s).state).state.m_devices.filter
          (fun e => !decide (e.1 = env.GUID_SysKeyboard))
        = s.m_devices.filter (fun e => !decide (e.1 = env.GUID_SysKeyboard))
    ∧ ∀ g, g ≠ env.GUID_SysKeyboard →
        DeviceList.find g
          (CManager.CreateKeyboard env window2
            (CManager.CreateKeyboard env window1 s).state).state.m_devices
        = DeviceList.find g s.m_devices := by
  have h1 : (CManager.CreateKeyboard env window1 s).state.m_directInput
      = (env.CreateDevice s.m_directInput env.GUID_SysKeyboard).2 := by
    simp [CManager.CreateKeyboard, hopen1, CManager.LeaveCriticalSection, CManager.touch,
      CManager.EnterCriticalSection]
  have h2 : (CManager.CreateKeyboard env window1 s).state.m_devices
      = DeviceList.assign env.GUID_SysKeyboard (env.CKeyboard device1 window1) s.m_devices := by
    simp [CManager.CreateKeyboard, hopen1, CManager.LeaveCriticalSection, CManager.touch,
      CManager.EnterCriticalSection]
  have h3 : (CManager.CreateKeyboard env window1 s).error = none := by
    simp [CManager.CreateKeyboard, hopen1]
  have hopen2b : (env.CreateDevice (CManager.CreateKeyboard env window1 s).state.m_directInput
      env.GUID_SysKeyboard).1 = some device2 := by rw [h1]; exact hopen2
  have h4 : (CManager.CreateKeyboard env window2
      (CManager.CreateKeyboard env window1 s).state).state.m_devices
      = DeviceList.assign env.GUID_SysKeyboard (env.CKeyboard device2 window2)
          (DeviceList.assign env.GUID_SysKeyboard (env.CKeyboard device1 window1)
            s.m_devices) := by
    rw [← h2]
    generalize (CManager.CreateKeyboard env window1 s).state = s1 at hopen2b ⊢
    simp [CManager.CreateKeyboard, hopen2b, CManager.LeaveCriticalSection, CManager.touch,
      CManager.EnterCriticalSection]
  have h5 : (CManager.CreateKeyboard env window2
      (CManager.CreateKeyboard env window1 s).state).error = none := by
    generalize (CManager.CreateKeyboard env window1 s).state = s1 at hopen2b ⊢
    simp [CManager.CreateKeyboard, hopen2b]
  have ho1 := DeviceList.assign_ordered env.GUID_SysKeyboard (env.CKeyboard device1 window1)
    s.m_devices hordered
  refine ⟨h3, h5, ?_, ?_, ?_, ?_, ?_⟩
  · rw [h4]; exact DeviceList.assign_ordered _ _ _ ho1
  · rw [h4]; exact DeviceList.assign_filter_self _ _ _ ho1
  · rw [h4]; exact DeviceList.find_assign_self _ _ _
  · rw [h4]
    rw [DeviceList.assign_filter_key (fun g => !decide (g = env.GUID_SysKeyboard)) _ _ _
      (by simp)]
    rw [DeviceList.assign_filter_key (fun g => !decide (g = env.GUID_SysKeyboard)) _ _ _
      (by simp)]
  · intro g hg
    rw [h4, DeviceList.find_assign_ne _ _ _ _ hg, DeviceList.find_assign_ne _ _ _ _ hg]

/-- C4, at a concrete input: two joysticks are in the table, then the keyboard is created
from handle 7 and again from handle 8. -/
theorem createKeyboard_twice_replaces_witness :
    (CManager.CreateKeyboard mock 6
        (CManager.CreateKeyboard mock 5
          (CManager.CreateJoysticks mock 5
            (mockManager [some 1, some 2, some 7, some 8] [10, 20]))).state).state.m_devices
      = [ (0, { joystick := false, device := 8, window := 6, script := [] }),
          (10, { joystick := true, device := 1, window := 5, script := [([(10, 3, 1)], false)] }),
          (20, { joystick := true, device := 2, window := 5, script := [([(20, 7, 255)], false)] }) ]
    ∧ (CManager.CreateKeyboard mock 6
        (CManager.CreateKeyboard mock 5
          (CManager.CreateJoysticks mock 5
            (mockManager [some 1, some 2, some 7, some 8] [10, 20]))).state).state.m_devices.filter
          (fun e => decide (e.1 = mock.GUID_SysKeyboard))
      = [(mock.GUID_SysKeyboard, mock.CKeyboard 8 6)] :=
  ⟨by decide,
    (createKeyboard_twice_replaces mock 5 6 7 8
      (CManager.CreateJoysticks mock 5 (mockManager [some 1, some 2, some 7, some 8] [10, 20]))
      (by decide) (by decide) (by decide)).2.2.2.1⟩

/-! ## Ids returned by registration -/

theorem CManager.register_next (inputEventHandler : H) (s : CManager G P D H) :
    (CManager.RegisterInputEventHandler inputEventHandler s).2.m_nextInputEventHandlerId
      = (s.m_nextInputEventHandlerId + 1) % 4294967296 := rfl

theorem CManager.unregister_next (eventHandlerId : Nat) (s : CManager G P D H) :
    (CManager.UnregisterInputEventHandler eventHandlerId s).state.m_nextInputEventHandlerId
      = s.m_nextInputEventHandlerId := by
  cases h : InputEventHandlerMap.find eventHandlerId s.m_inputEventHandlers <;>
    simp [CManager.UnregisterInputEventHandler, CManager.touch, CManager.EnterCriticalSection,
      CManager.LeaveCriticalSection, h]

theorem CManager.enumerate_next (attached : List G) :
    ∀ s : CManager G P D H,
      (attached.foldl (fun s guidInstance => CManager.EnumDevicesCallbackImpl guidInstance s)
        s).m_nextInputEventHandlerId = s.m_nextInputEventHandlerId := by
  induction attached with
  | nil => intro s; rfl
  | cons g rest ih =>
    intro s
    rw [List.foldl_cons, ih]
    rfl

theorem CManager.ctor_next (directInput8Create : Option P) (attached : List G)
    (s : CManager G P D H) (hctor : CManager.ctor directInput8Create attached = Except.ok s) :
    s.m_nextInputEventHandlerId = 1 := by
  cases directInput8Create with
  | none => simp [CManager.ctor] at hctor
  | some directInput =>
    simp only [CManager.ctor, Except.ok.injEq] at hctor
    rw [← hctor, CManager.enumerate_next]

/-- The ids returned along any sequence of registry calls are consecutive values of the
counter modulo `2^32`, starting from its current value. -/
theorem CManager.returnedIds_eq (calls : List (RegistryCall H)) :
    ∀ s : CManager G P D H, s.m_nextInputEventHandlerId < 4294967296 →
      ∃ m, m ≤ RegistryCall.registrations calls ∧
        CManager.returnedIds calls s
          = (List.range m).map (fun k => (s.m_nextInputEventHandlerId + k) % 4294967296) := by
  induction calls with
  | nil => intro s _; exact ⟨0, Nat.le_refl _, rfl⟩
  | cons c rest ih =>
    intro s hs
    cases c with
    | Register inputEventHandler =>
      obtain ⟨m, hm, heq⟩ := ih (CManager.RegisterInputEventHandler inputEventHandler s).2
        (by rw [CManager.register_next]; exact Nat.mod_lt _ (by norm_num))
      refine ⟨m + 1, by simpa [RegistryCall.registrations] using hm, ?_⟩
      have hstep : CManager.returnedIds (RegistryCall.Register inputEventHandler :: rest) s
          = s.m_nextInputEventHandlerId
            :: CManager.returnedIds rest
                (CManager.RegisterInputEventHandler inputEventHandler s).2 := rfl
      rw [hstep, heq, CManager.register_next, List.range_succ_eq_map, List.map_cons,
        List.map_map]
      congr 1
      · simp [Nat.mod_eq_of_lt hs]
      · apply List.map_congr_left
        intro k _
        simp only [Function.comp, Nat.succ_eq_add_one]
        omega
    | Unregister eventHandlerId =>
      cases herr : (CManager.UnregisterInputEventHandler eventHandlerId s).error with
      | some err =>
        refine ⟨0, Nat.zero_le _, ?_⟩
        simp [CManager.returnedIds, herr]
      | none =>
        obtain ⟨m, hm, heq⟩ := ih (CManager.UnregisterInputEventHandler eventHandlerId s).state
          (by rw [CManager.unregister_next]; exact hs)
        refine ⟨m, by simpa [RegistryCall.registrations] using hm, ?_⟩
        rw [CManager.unregister_next] at heq
        simp [CManager.returnedIds, herr, heq]

/-- A run of registrations alone returns exactly one id per call. -/
theorem CManager.returnedIds_replicate (inputEventHandler : H) (n : Nat) :
    ∀ s : CManager G P D H, s.m_nextInputEventHandlerId < 4294967296 →
      CManager.returnedIds (List.replicate n (RegistryCall.Register inputEventHandler)) s
        = (List.range n).map (fun k => (s.m_nextInputEventHandlerId + k) % 4294967296) := by
  induction n with
  | zero => intro s _; rfl
  | succ n ih =>
    intro s hs
    have hstep : CManager.returnedIds
        (List.replicate (n + 1) (RegistryCall.Register inputEventHandler)) s
        = s.m_nextInputEventHandlerId
          :: CManager.returnedIds (List.replicate n (RegistryCall.Register inputEventHandler))
              (CManager.RegisterInputEventHandler inputEventHandler s).2 := rfl
    rw [hstep, ih _ (by rw [CManager.register_next]; exact Nat.mod_lt _ (by norm_num)),
      CManager.register_next, List.range_succ_eq_map, List.map_cons, List.map_map]
    congr 1
    · simp [Nat.mod_eq_of_lt hs]
    · apply List.map_congr_left
      intro k _
      simp only [Function.comp, Nat.succ_eq_add_one]
      omega

theorem not_pairwise_lt_map_range (n : Nat) (f : Nat → Nat) (i j : Nat) (hij : i < j)
    (hj : j < n) (hf : ¬ f i < f j) :
    ¬ List.Pairwise (fun a b => a < b) ((List.range n).map f) := by
  intro hp
  have h := List.pairwise_iff_getElem.mp hp i j (by simp; omega) (by simp; omega) hij
  simp only [List.getElem_map, List.getElem_range] at h
  exact hf h

theorem not_nodup_map_range (n : Nat) (f : Nat → Nat) (i j : Nat) (hij : i < j)
    (hj : j < n) (hf : f i = f j) : ¬ ((List.range n).map f).Nodup := by
  intro hn
  have hi' : i < ((List.range n).map f).length := by simp; omega
  have hj' : j < ((List.range n).map f).length := by simp; omega
  have h : ((List.range n).map f)[i] = ((List.range n).map f)[j] := by
    simp only [List.getElem_map, List.getElem_range]
    exact hf
  have := (@List.Nodup.getElem_inj_iff _ _ hn i hi' j hj').mp h
  omega

/-- C1, as amended: on a manager fresh from its constructor, every sequence of registry
calls with fewer than `2^32` registrations returns the ids `1, 2, ..., m` in this order
(`m` the number of registrations reached): the first is 1, each is greater than the one
before, none is returned twice. -/
theorem returnedIds_increasing (directInput8Create : Option P) (attached : List G)
    (s : CManager G P D H) (calls : List (RegistryCall H))
    (hctor : CManager.ctor directInput8Create attached = Except.ok s)
    (hbound : RegistryCall.registrations calls < 4294967296) :
    (∃ m, m ≤ RegistryCall.registrations calls ∧ CManager.returnedIds calls s = List.range' 1 m)
    ∧ (∀ first ∈ (CManager.returnedIds calls s).head?, first = 1)
    ∧ List.Pairwise (fun a b => a < b) (CManager.returnedIds calls s)
    ∧ (CManager.returnedIds calls s).Nodup := by
  have hnext := CManager.ctor_next directInput8Create attached s hctor
  obtain ⟨m, hm, heq⟩ := CManager.returnedIds_eq calls s (by rw [hnext]; norm_num)
  have hrange : CManager.returnedIds calls s = List.range' 1 m := by
    rw [heq, hnext, List.range'_eq_map_range]
    apply List.map_congr_left
    intro k hk
    have := List.mem_range.mp hk
    omega
  refine ⟨⟨m, hm, hrange⟩, ?_, ?_, ?_⟩
  · intro first hfirst
    rw [hrange, List.head?_range'] at hfirst
    by_cases h0 : m = 0
    · simp [h0] at hfirst
    · simp [h0] at hfirst
      exact hfirst.symm
  · rw [hrange]; exact List.pairwise_lt_range' 1 m
  · rw [hrange]; exact List.nodup_range' 1 m

/-- C1 as amended, at a concrete input: three registrations around one unregistration
return 1, 2, 3. -/
theorem returnedIds_increasing_witness :
    CManager.returnedIds
        [RegistryCall.Register 77, RegistryCall.Register 78, RegistryCall.Unregister 1,
          RegistryCall.Register 79]
        (mockManager [] []) = [1, 2, 3]
    ∧ List.Pairwise (fun a b => a < b)
        (CManager.returnedIds
          [RegistryCall.Register 77, RegistryCall.Register 78, RegistryCall.Unregister 1,
            RegistryCall.Register 79]
          (mockManager [] [])) :=
  ⟨by decide,
    (returnedIds_increasing (some []) []
      (mockManager [] [])
      [RegistryCall.Register 77, RegistryCall.Register 78, RegistryCall.Unregister 1,
        RegistryCall.Register 79]
      rfl (by decide)).2.2.1⟩

/-- C1 as stated fails: `2^32` registrations on a fresh manager return ids that are not
strictly increasing (the last one is 0, after 4294967295), and with one more
registration the id 1 is returned a second time. -/
theorem returnedIds_wrap_counterexample :
    ¬ List.Pairwise (fun a b => a < b)
        (CManager.returnedIds (List.replicate 4294967296 (RegistryCall.Register 77))
          (mockManager [] []))
    ∧ ¬ (CManager.returnedIds (List.replicate 4294967297 (RegistryCall.Register 77))
          (mockManager [] [])).Nodup := by
  have h1 := CManager.returnedIds_replicate (G := Nat) (P := List (Option Nat))
    (D := MockDevice) (77 : Nat) 4294967296 (mockManager [] []) (by decide)
  have h2 := CManager.returnedIds_replicate (G := Nat) (P := List (Option Nat))
    (D := MockDevice) (77 : Nat) 4294967297 (mockManager [] []) (by decide)
  constructor
  · rw [h1]
    exact not_pairwise_lt_map_range _ _ 4294967294 4294967295 (by norm_num) (by norm_num)
      (by decide)
  · rw [h2]
    exact not_nodup_map_range _ _ 0 4294967296 (by norm_num) (by norm_num) (by decide)

/-! ## Lemmas on `std::unordered_map` and on dispatch -/

theorem InputEventHandlerMap.find_none_iff_absent (k : Nat) (m : List (Nat × H)) :
    InputEventHandlerMap.find k m = none ↔ ∀ e ∈ m, e.1 ≠ k := by
  induction m with
  | nil => simp [InputEventHandlerMap.find]
  | cons e rest ih =>
    by_cases h : e.1 = k
    · simp [InputEventHandlerMap.find, h]
    · simp [InputEventHandlerMap.find, h, ih]

theorem InputEventHandlerMap.erase_eq_filter (k : Nat) (m : List (Nat × H))
    (hm : InputEventHandlerMap.distinct m) :
    InputEventHandlerMap.erase k m = m.filter (fun e => !decide (e.1 = k)) := by
  induction m with
  | nil => rfl
  | cons e rest ih =>
    unfold InputEventHandlerMap.distinct at hm ih
    rw [List.map_cons, List.nodup_cons] at hm
    by_cases h : e.1 = k
    · have hrest : rest.filter (fun e => !decide (e.1 = k)) = rest := by
        apply List.filter_eq_self.mpr
        intro x hx
        have hne : x.1 ≠ k := by
          intro hxk
          exact hm.1 (List.mem_map.mpr ⟨x, hx, by rw [hxk, h]⟩)
        simp [hne]
      simp [InputEventHandlerMap.erase, h, hrest]
    · simp [InputEventHandlerMap.erase, h, ih hm.2]

theorem InputEventHandlerMap.find_filter_ne (k h : Nat) (m : List (Nat × H)) (hne : k ≠ h) :
    InputEventHandlerMap.find k (m.filter (fun e => !decide (e.1 = h)))
      = InputEventHandlerMap.find k m := by
  induction m with
  | nil => rfl
  | cons e rest ih =>
    by_cases he : e.1 = h
    · have hek : e.1 ≠ k := by rw [he]; exact Ne.symm hne
      rw [List.filter_cons_of_neg (by simp [he]), ih]
      simp [InputEventHandlerMap.find, hek]
    · rw [List.filter_cons_of_pos (by simp [he])]
      by_cases hek : e.1 = k
      · simp [InputEventHandlerMap.find, hek]
      · simp [InputEventHandlerMap.find, hek, ih]

theorem InputEventHandlerMap.find_filter_self (h : Nat) (m : List (Nat × H)) :
    InputEventHandlerMap.find h (m.filter (fun e => !decide (e.1 = h))) = none := by
  rw [InputEventHandlerMap.find_none_iff_absent]
  intro e he
  have := (List.mem_filter.mp he).2
  simpa using this

theorem InputEventHandlerMap.filter_distinct (h : Nat) (m : List (Nat × H))
    (hm : InputEventHandlerMap.distinct m) :
    InputEventHandlerMap.distinct (m.filter (fun e => !decide (e.1 = h))) := by
  unfold InputEventHandlerMap.distinct at hm ⊢
  exact List.Nodup.sublist (List.Sublist.map _ (List.filter_sublist _)) hm

theorem dispatch_filter_absent (k : Nat) (m : List (Nat × H)) (device : G) (id value : Nat)
    (hk : InputEventHandlerMap.find k m = none) :
    (dispatch m device id value).filter (Action.isCallOf k) = [] := by
  rw [InputEventHandlerMap.find_none_iff_absent] at hk
  apply List.filter_eq_nil_iff.mpr
  intro a ha
  obtain ⟨e, he, rfl⟩ := List.mem_map.mp ha
  simpa [Action.isCallOf] using hk e he

theorem dispatch_filter_present (k : Nat) (f : H) (m : List (Nat × H)) (device : G)
    (id value : Nat) (hm : InputEventHandlerMap.distinct m)
    (hk : InputEventHandlerMap.find k m = some f) :
    (dispatch m device id value).filter (Action.isCallOf k)
      = [Action.InputEventHandler k f device id value] := by
  induction m with
  | nil => simp [InputEventHandlerMap.find] at hk
  | cons e rest ih =>
    unfold InputEventHandlerMap.distinct at hm ih
    rw [List.map_cons, List.nodup_cons] at hm
    by_cases h : e.1 = k
    · have hf : e.2 = f := by simpa [InputEventHandlerMap.find, h] using hk
      have hrest : InputEventHandlerMap.find k rest = none := by
        rw [InputEventHandlerMap.find_none_iff_absent]
        intro x hx hxk
        exact hm.1 (List.mem_map.mpr ⟨x, hx, by rw [hxk, h]⟩)
      have h0 := dispatch_filter_absent k rest device id value hrest
      unfold dispatch at h0 ⊢
      rw [List.map_cons, List.filter_cons_of_pos (by simp [Action.isCallOf, h]), h0, h, hf]
    · have hrest : InputEventHandlerMap.find k rest = some f := by
        simpa [InputEventHandlerMap.find, h] using hk
      have h1 := ih hm.2 hrest
      unfold dispatch at h1 ⊢
      rw [List.map_cons, List.filter_cons_of_neg (by simp [Action.isCallOf, h]), h1]

theorem CManager.foldl_record (f : Nat × H → Action G H) (m : List (Nat × H)) :
    ∀ s : CManager G P D H,
      m.foldl (fun s e => CManager.record (f e) s) s = { s with log := s.log ++ m.map f } := by
  induction m with
  | nil => intro s; simp
  | cons e rest ih =>
    intro s
    rw [List.foldl_cons, ih]
    simp [CManager.record]

/-- What `CallInputEventHandlers` does: it reads the registry and calls every entry once,
in registry order; nothing else changes. -/
theorem CManager.CallInputEventHandlers_eq (device : G) (id value : Nat)
    (s : CManager G P D H) :
    CManager.CallInputEventHandlers device id value s
      = { s with log := s.log
            ++ Action.access Member.m_inputEventHandlers s.m_updateMutex
              :: dispatch s.m_inputEventHandlers device id value } := by
  unfold CManager.CallInputEventHandlers
  rw [CManager.foldl_record]
  simp [CManager.touch, dispatch]

/-! ## Unregistering a registered id -/

/-- C2: for every registry (keys pairwise distinct) and every id `h` registered in it,
`UnregisterInputEventHandler h` returns, the registry afterwards has no entry under `h`
and holds every other entry as before (as a list: the old one without the entry of `h`);
a `CallInputEventHandlers` afterwards, for any device, control id and value, calls the
handler of every remaining entry exactly once with these arguments and makes no call of
the handler that was stored under `h`. -/
theorem unregister_removes_handler (s : CManager G P D H) (h : Nat) (f : H) (device : G)
    (id value : Nat)
    (hdistinct : InputEventHandlerMap.distinct s.m_inputEventHandlers)
    (hregistered : InputEventHandlerMap.find h s.m_inputEventHandlers = some f) :
    (CManager.UnregisterInputEventHandler h s).error = none
    ∧ (CManager.UnregisterInputEventHandler h s).state.m_inputEventHandlers
        = s.m_inputEventHandlers.filter (fun e => !decide (e.1 = h))
    ∧ InputEventHandlerMap.find h
        (CManager.UnregisterInputEventHandler h s).state.m_inputEventHandlers = none
    ∧ (∀ k, k ≠ h →
        InputEventHandlerMap.find k
          (CManager.UnregisterInputEventHandler h s).state.m_inputEventHandlers
        = InputEventHandlerMap.find k s.m_inputEventHandlers)
    ∧ (CManager.CallInputEventHandlers device id value
          (CManager.UnregisterInputEventHandler h s).state).log
        = (CManager.UnregisterInputEventHandler h s).state.log
          ++ Action.access Member.m_inputEventHandlers
              (CManager.UnregisterInputEventHandler h s).state.m_updateMutex
            :: dispatch (CManager.UnregisterInputEventHandler h s).state.m_inputEventHandlers
                device id value
    ∧ (∀ k g, k ≠ h → InputEventHandlerMap.find k s.m_inputEventHandlers = some g →
        (dispatch (CManager.UnregisterInputEventHandler h s).state.m_inputEventHandlers
          device id value).filter (Action.isCallOf k)
        = [Action.InputEventHandler k g device id value])
    ∧ (dispatch (CManager.UnregisterInputEventHandler h s).state.m_inputEventHandlers
          device id value).filter (Action.isCallOf h) = [] := by
  have herase : (CManager.UnregisterInputEventHandler h s).state.m_inputEventHandlers
      = s.m_inputEventHandlers.filter (fun e => !decide (e.1 = h)) := by
    rw [← InputEventHandlerMap.erase_eq_filter h _ hdistinct]
    simp [CManager.UnregisterInputEventHandler, CManager.touch, CManager.EnterCriticalSection,
      CManager.LeaveCriticalSection, hregistered]
  have herr : (CManager.UnregisterInputEventHandler h s).error = none := by
    simp [CManager.UnregisterInputEventHandler, CManager.touch, CManager.EnterCriticalSection,
      hregistered]
  refine ⟨herr, herase, ?_, ?_, ?_, ?_, ?_⟩
  · rw [herase]; exact InputEventHandlerMap.find_filter_self h _
  · intro k hk
    rw [herase]; exact InputEventHandlerMap.find_filter_ne k h _ hk
  · rw [CManager.CallInputEventHandlers_eq]
  · intro k g hk hfind
    rw [herase]
    apply dispatch_filter_present k g _ device id value
      (InputEventHandlerMap.filter_distinct h _ hdistinct)
    rw [InputEventHandlerMap.find_filter_ne k h _ hk]
    exact hfind
  · rw [herase]
    exact dispatch_filter_absent h _ device id value (InputEventHandlerMap.find_filter_self h _)

/-- C2, at a concrete input: handlers 77, 78, 79 are registered under 1, 2, 3; after
unregistering 2 a dispatch calls 77 and 79 once each and not 78. -/
theorem unregister_removes_handler_witness :
    (dispatch
        (CManager.UnregisterInputEventHandler 2
          (CManager.RegisterInputEventHandler 79
            (CManager.RegisterInputEventHandler 78
              (CManager.RegisterInputEventHandler 77
                (mockManager [] [])).2).2).2).state.m_inputEventHandlers
        (10 : Nat) 3 1).filter (Action.isCallOf 1) = [Action.InputEventHandler 1 77 10 3 1]
    ∧ (dispatch
        (CManager.UnregisterInputEventHandler 2
          (CManager.RegisterInputEventHandler 79
            (CManager.RegisterInputEventHandler 78
              (CManager.RegisterInputEventHandler 77
                (mockManager [] [])).2).2).2).state.m_inputEventHandlers
        (10 : Nat) 3 1).filter (Action.isCallOf 3) = [Action.InputEventHandler 3 79 10 3 1]
    ∧ (dispatch
        (CManager.UnregisterInputEventHandler 2
          (CManager.RegisterInputEventHandler 79
            (CManager.RegisterInputEventHandler 78
              (CManager.RegisterInputEventHandler 77
                (mockManager [] [])).2).2).2).state.m_inputEventHandlers
        (10 : Nat) 3 1).filter (Action.isCallOf 2) = [] :=
  ⟨(unregister_removes_handler
      (CManager.RegisterInputEventHandler 79
        (CManager.RegisterInputEventHandler 78
          (CManager.RegisterInputEventHandler 77 (mockManager [] [])).2).2).2
      2 78 10 3 1 (by decide) (by decide)).2.2.2.2.2.1 1 77 (by decide) (by decide),
    (unregister_removes_handler
      (CManager.RegisterInputEventHandler 79
        (CManager.RegisterInputEventHandler 78
          (CManager.RegisterInputEventHandler 77 (mockManager [] [])).2).2).2
      2 78 10 3 1 (by decide) (by decide)).2.2.2.2.2.1 3 79 (by decide) (by decide),
    (unregister_removes_handler
      (CManager.RegisterInputEventHandler 79
        (CManager.RegisterInputEventHandler 78
          (CManager.RegisterInputEventHandler 77 (mockManager [] [])).2).2).2
      2 78 10 3 1 (by decide) (by decide)).2.2.2.2.2.2⟩

/-! ## The poll cycle -/

theorem CManager.inputEventHandler_eq (reported : List (G × Nat × Nat)) :
    ∀ s : CManager G P D H,
      CManager.inputEventHandler reported s
        = { s with log := s.log ++ reported.flatMap (fun ev =>
              Action.access Member.m_inputEventHandlers s.m_updateMutex
                :: dispatch s.m_inputEventHandlers ev.1 ev.2.1 ev.2.2) } := by
  induction reported with
  | nil => intro s; simp [CManager.inputEventHandler]
  | cons ev rest ih =>
    intro s
    have hstep : CManager.inputEventHandler (ev :: rest) s
        = CManager.inputEventHandler rest
            (CManager.CallInputEventHandlers ev.1 ev.2.1 ev.2.2 s) := rfl
    rw [hstep, ih, CManager.CallInputEventHandlers_eq]
    simp [List.flatMap_cons]

/-- What the device loop does to the state: it only extends the log. -/
theorem CManager.deviceLoop_state (env : Collaborators G P D) (devices : List (G × D)) :
    ∀ s : CManager G P D H,
      (CManager.deviceLoop env devices s).state
        = { s with log := s.log
              ++ deviceLoopLog env s.m_updateMutex s.m_inputEventHandlers devices } := by
  induction devices with
  | nil => intro s; simp [CManager.deviceLoop, deviceLoopLog]
  | cons e rest ih =>
    intro s
    by_cases hr : (env.ProcessEvents e.2).raised = true
    · simp [CManager.deviceLoop, deviceLoopLog, hr, CManager.inputEventHandler_eq, CManager.record]
    · simp [CManager.deviceLoop, deviceLoopLog, hr, ih, CManager.inputEventHandler_eq, CManager.record]

theorem CManager.deviceLoop_raised (env : Collaborators G P D) (devices : List (G × D)) :
    ∀ s : CManager G P D H,
      (CManager.deviceLoop env devices s).raised
        = devices.any (fun e => (env.ProcessEvents e.2).raised) := by
  induction devices with
  | nil => intro s; rfl
  | cons e rest ih =>
    intro s
    by_cases hr : (env.ProcessEvents e.2).raised = true
    · simp [CManager.deviceLoop, hr]
    · simp [CManager.deviceLoop, hr, ih]

theorem CManager.deviceLoop_keys (env : Collaborators G P D) (devices : List (G × D)) :
    ∀ s : CManager G P D H,
      (CManager.deviceLoop env devices s).devices.map Prod.fst = devices.map Prod.fst := by
  induction devices with
  | nil => intro s; rfl
  | cons e rest ih =>
    intro s
    by_cases hr : (env.ProcessEvents e.2).raised = true
    · simp [CManager.deviceLoop, hr]
    · simp [CManager.deviceLoop, hr, ih]

theorem deviceLoopLog_handlerCalls (env : Collaborators G P D) (guardHeld : Bool)
    (handlers : List (Nat × H)) (devices : List (G × D)) :
    (deviceLoopLog env guardHeld handlers devices).filter Action.isHandlerCall
      = deliveries handlers (reportedInCycle env devices) := by
  have hdispatch : ∀ (g : G) (i v : Nat),
      (dispatch handlers g i v).filter Action.isHandlerCall = dispatch handlers g i v := by
    intro g i v
    apply List.filter_eq_self.mpr
    intro a ha
    obtain ⟨x, _, rfl⟩ := List.mem_map.mp ha
    rfl
  have hreports : ∀ reported : List (G × Nat × Nat),
      (reported.flatMap (fun ev => Action.access Member.m_inputEventHandlers guardHeld
          :: dispatch handlers ev.1 ev.2.1 ev.2.2)).filter Action.isHandlerCall
        = reported.flatMap (fun ev => dispatch handlers ev.1 ev.2.1 ev.2.2) := by
    intro reported
    induction reported with
    | nil => rfl
    | cons ev rest ih =>
      rw [List.flatMap_cons, List.flatMap_cons, List.filter_append, ih,
        List.filter_cons_of_neg (by simp [Action.isHandlerCall]), hdispatch]
  induction devices with
  | nil => rfl
  | cons e rest ih =>
    unfold deviceLoopLog reportedInCycle deliveries
    rw [List.filter_cons_of_neg (by simp [Action.isHandlerCall]), List.filter_append, hreports,
      List.flatMap_cons]
    congr 1
    by_cases hr : (env.ProcessEvents e.2).raised = true
    · simp [hr]
    · simp only [hr]
      exact ih

theorem deviceLoopLog_processEvents (env : Collaborators G P D) (guardHeld : Bool)
    (handlers : List (Nat × H)) (devices : List (G × D)) :
    (deviceLoopLog env guardHeld handlers devices).filter Action.isProcessEvents
      = (reportedInCycle env devices).map (fun r => Action.ProcessEvents r.1) := by
  have hreports : ∀ reported : List (G × Nat × Nat),
      (reported.flatMap (fun ev => Action.access Member.m_inputEventHandlers guardHeld
          :: dispatch handlers ev.1 ev.2.1 ev.2.2)).filter Action.isProcessEvents = [] := by
    intro reported
    apply List.filter_eq_nil_iff.mpr
    intro a ha
    obtain ⟨ev, _, hev⟩ := List.mem_flatMap.mp ha
    rcases List.mem_cons.mp hev with h | h
    · simp [h, Action.isProcessEvents]
    · obtain ⟨x, _, rfl⟩ := List.mem_map.mp h
      simp [Action.isProcessEvents]
  induction devices with
  | nil => rfl
  | cons e rest ih =>
    unfold deviceLoopLog reportedInCycle
    rw [List.filter_cons_of_pos (by simp [Action.isProcessEvents]), List.filter_append,
      hreports, List.nil_append, List.map_cons]
    congr 1
    by_cases hr : (env.ProcessEvents e.2).raised = true
    · simp [hr]
    · simp only [hr]
      exact ih

theorem deviceLoopLog_underGuard (env : Collaborators G P D) (handlers : List (Nat × H))
    (devices : List (G × D)) :
    ∀ a ∈ deviceLoopLog env true handlers devices, Action.underGuard a = true := by
  induction devices with
  | nil => intro a ha; simp [deviceLoopLog] at ha
  | cons e rest ih =>
    intro a ha
    unfold deviceLoopLog at ha
    rcases List.mem_cons.mp ha with h | h
    · rw [h]; rfl
    · rcases List.mem_append.mp h with h | h
      · obtain ⟨ev, _, hev⟩ := List.mem_flatMap.mp h
        rcases List.mem_cons.mp hev with h | h
        · rw [h]; rfl
        · obtain ⟨x, _, rfl⟩ := List.mem_map.mp h
          rfl
      · by_cases hr : (env.ProcessEvents e.2).raised = true
        · simp [hr] at h
        · simp only [hr] at h
          exact ih a h

theorem reportedInCycle_of_returns (env : Collaborators G P D) (devices : List (G × D))
    (hret : ∀ e ∈ devices, (env.ProcessEvents e.2).raised = false) :
    reportedInCycle env devices
      = devices.map (fun e => (e.1, (env.ProcessEvents e.2).reported)) := by
  induction devices with
  | nil => rfl
  | cons e rest ih =>
    have h1 := hret e (List.mem_cons_self _ _)
    have h2 := ih (fun x hx => hret x (List.mem_cons_of_mem _ hx))
    simp [reportedInCycle, h1, h2]

theorem reportedInCycle_of_raises (env : Collaborators G P D) (pre post : List (G × D))
    (e : G × D) (hret : ∀ x ∈ pre, (env.ProcessEvents x.2).raised = false)
    (hraise : (env.ProcessEvents e.2).raised = true) :
    reportedInCycle env (pre ++ e :: post)
      = (pre ++ [e]).map (fun e => (e.1, (env.ProcessEvents e.2).reported)) := by
  induction pre with
  | nil => simp [reportedInCycle, hraise]
  | cons x rest ih =>
    have h1 := hret x (List.mem_cons_self _ _)
    have h2 := ih (fun y hy => hret y (List.mem_cons_of_mem _ hy))
    rw [List.cons_append]
    unfold reportedInCycle
    rw [h2]
    simp [h1]

/-- The log one poll cycle leaves. -/
theorem CManager.pollCycle_log (env : Collaborators G P D) (s : CManager G P D H) :
    (CManager.pollCycle env s).state.log
      = s.log
        ++ ([Action.EnterCriticalSection, Action.access Member.m_devices true]
          ++ deviceLoopLog env true s.m_inputEventHandlers s.m_devices
          ++ (if s.m_devices.any (fun e => (env.ProcessEvents e.2).raised) then []
              else [Action.LeaveCriticalSection, Action.Sleep 16])) := by
  unfold CManager.pollCycle
  simp only [CManager.deviceLoop_raised, CManager.deviceLoop_state]
  by_cases hr : s.m_devices.any (fun e => (env.ProcessEvents e.2).raised) = true
  · simp [hr, CManager.touch, CManager.EnterCriticalSection]
  · simp [hr, CManager.touch, CManager.EnterCriticalSection, CManager.LeaveCriticalSection,
      CManager.record]

theorem CManager.pollCycle_error (env : Collaborators G P D) (s : CManager G P D H) :
    (CManager.pollCycle env s).error
      = if s.m_devices.any (fun e => (env.ProcessEvents e.2).raised)
        then some Error.device_error else none := by
  unfold CManager.pollCycle
  simp only [CManager.deviceLoop_raised]
  by_cases hr : s.m_devices.any (fun e => (env.ProcessEvents e.2).raised) = true
  · simp [hr, CManager.touch, CManager.EnterCriticalSection]
  · simp [hr, CManager.touch, CManager.EnterCriticalSection]

theorem CManager.pollCycle_guard (env : Collaborators G P D) (s : CManager G P D H) :
    (CManager.pollCycle env s).state.m_updateMutex
      = s.m_devices.any (fun e => (env.ProcessEvents e.2).raised) := by
  unfold CManager.pollCycle
  simp only [CManager.deviceLoop_raised, CManager.deviceLoop_state]
  by_cases hr : s.m_devices.any (fun e => (env.ProcessEvents e.2).raised) = true
  · simp [hr, CManager.touch, CManager.EnterCriticalSection]
  · simp [hr, CManager.touch, CManager.EnterCriticalSection, CManager.LeaveCriticalSection,
      CManager.record]

theorem CManager.pollCycle_keys (env : Collaborators G P D) (s : CManager G P D H) :
    (CManager.pollCycle env s).state.m_devices.map Prod.fst = s.m_devices.map Prod.fst := by
  unfold CManager.pollCycle
  simp only [CManager.deviceLoop_raised]
  by_cases hr : s.m_devices.any (fun e => (env.ProcessEvents e.2).raised) = true
  · simp [hr, CManager.touch, CManager.EnterCriticalSection, CManager.deviceLoop_keys]
  · simp [hr, CManager.touch, CManager.EnterCriticalSection, CManager.LeaveCriticalSection,
      CManager.record, CManager.deviceLoop_keys]

theorem CManager.pollCycle_handlerCalls (env : Collaborators G P D) (s : CManager G P D H) :
    (CManager.pollCycle env s).state.log.filter Action.isHandlerCall
      = s.log.filter Action.isHandlerCall
        ++ deliveries s.m_inputEventHandlers (reportedInCycle env s.m_devices) := by
  rw [CManager.pollCycle_log, List.filter_append, List.filter_append, List.filter_append,
    deviceLoopLog_handlerCalls]
  by_cases hr : s.m_devices.any (fun e => (env.ProcessEvents e.2).raised) = true
  · simp [hr, Action.isHandlerCall]
  · simp [hr, Action.isHandlerCall]

theorem CManager.pollCycle_processEvents (env : Collaborators G P D) (s : CManager G P D H) :
    (CManager.pollCycle env s).state.log.filter Action.isProcessEvents
      = s.log.filter Action.isProcessEvents
        ++ (reportedInCycle env s.m_devices).map (fun r => Action.ProcessEvents r.1) := by
  rw [CManager.pollCycle_log, List.filter_append, List.filter_append, List.filter_append,
    deviceLoopLog_processEvents]
  by_cases hr : s.m_devices.any (fun e => (env.ProcessEvents e.2).raised) = true
  · simp [hr, Action.isProcessEvents]
  · simp [hr, Action.isProcessEvents]

theorem any_raised_of_returns (env : Collaborators G P D) (devices : List (G × D))
    (hret : ∀ e ∈ devices, (env.ProcessEvents e.2).raised = false) :
    devices.any (fun e => (env.ProcessEvents e.2).raised) = false := by
  rw [List.any_eq_false]
  intro e he
  simp [hret e he]

theorem any_raised_of_raises (env : Collaborators G P D) (pre post : List (G × D)) (e : G × D)
    (hraise : (env.ProcessEvents e.2).raised = true) :
    (pre ++ e :: post).any (fun e => (env.ProcessEvents e.2).raised) = true := by
  rw [List.any_eq_true]
  exact ⟨e, by simp, hraise⟩

theorem CManager.UpdateThreadProc_succ (env : Collaborators G P D) (cycles : Nat)
    (s : CManager G P D H) :
    CManager.UpdateThreadProc env (cycles + 1) s
      = match (CManager.pollCycle env s).error with
        | some err => { state := (CManager.pollCycle env s).state, error := some err }
        | none => CManager.UpdateThreadProc env cycles (CManager.pollCycle env s).state := rfl

/-- C9 as stated fails: identity 10 raises in its first `ProcessEvents` call (and would
report `(5, 5)` in its second), identity 20 would report `(7, 255)`, handler 77 is
registered.  `UpdateThreadProc`, allowed two cycles, ends with the error, with the guard
still held, after the single `ProcessEvents` call of identity 10: identity 20 is never
processed, no handler call is made, and no second cycle runs. -/
theorem processEvents_raise_counterexample :
    (CManager.UpdateThreadProc mock 2
        (CManager.RegisterInputEventHandler 77
          (CManager.CreateJoysticks mock 5 (mockManager [some 3, some 2] [10, 20]))).2).error
      = some Error.device_error
    ∧ (CManager.UpdateThreadProc mock 2
        (CManager.RegisterInputEventHandler 77
          (CManager.CreateJoysticks mock 5
            (mockManager [some 3, some 2] [10, 20]))).2).state.m_updateMutex = true
    ∧ (CManager.UpdateThreadProc mock 2
        (CManager.RegisterInputEventHandler 77
          (CManager.CreateJoysticks mock 5
            (mockManager [some 3, some 2] [10, 20]))).2).state.log.filter Action.isProcessEvents
      = [Action.ProcessEvents 10]
    ∧ (CManager.UpdateThreadProc mock 2
        (CManager.RegisterInputEventHandler 77
          (CManager.CreateJoysticks mock 5
            (mockManager [some 3, some 2] [10, 20]))).2).state.log.filter Action.isHandlerCall
      = [] := by
  decide

/-- C9, as amended: a poll cycle in which every `ProcessEvents` call returns calls
`ProcessEvents` of every device, releases the guard and is followed by the next cycle.
When the call of one device raises (none before it in table order does), the error is not
caught: the cycle has called `ProcessEvents` of the devices up to that one and delivered
what they reported, it calls no later device, it ends with the guard held, and
`UpdateThreadProc` ends there with the error, whatever number of cycles was still to
come.  In both cases the table holds the same identities afterwards. -/
theorem pollCycle_raise_aborts (env : Collaborators G P D) (s : CManager G P D H)
    (cycles : Nat) :
    ((∀ e ∈ s.m_devices, (env.ProcessEvents e.2).raised = false) →
        (CManager.pollCycle env s).error = none
        ∧ (CManager.pollCycle env s).state.m_updateMutex = false
        ∧ (CManager.pollCycle env s).state.log.filter Action.isProcessEvents
            = s.log.filter Action.isProcessEvents
              ++ s.m_devices.map (fun e => Action.ProcessEvents e.1)
        ∧ CManager.UpdateThreadProc env (cycles + 1) s
            = CManager.UpdateThreadProc env cycles (CManager.pollCycle env s).state)
    ∧ (∀ (pre post : List (G × D)) (e : G × D), s.m_devices = pre ++ e :: post →
        (∀ x ∈ pre, (env.ProcessEvents x.2).raised = false) →
        (env.ProcessEvents e.2).raised = true →
        (CManager.pollCycle env s).error = some Error.device_error
        ∧ (CManager.pollCycle env s).state.m_updateMutex = true
        ∧ (CManager.pollCycle env s).state.log.filter Action.isProcessEvents
            = s.log.filter Action.isProcessEvents
              ++ (pre ++ [e]).map (fun x => Action.ProcessEvents x.1)
        ∧ (CManager.pollCycle env s).state.log.filter Action.isHandlerCall
            = s.log.filter Action.isHandlerCall
              ++ deliveries s.m_inputEventHandlers
                  ((pre ++ [e]).map (fun x => (x.1, (env.ProcessEvents x.2).reported)))
        ∧ CManager.UpdateThreadProc env (cycles + 1) s
            = { state := (CManager.pollCycle env s).state, error := some Error.device_error })
    ∧ (CManager.pollCycle env s).state.m_devices.map Prod.fst = s.m_devices.map Prod.fst := by
  refine ⟨?_, ?_, CManager.pollCycle_keys env s⟩
  · intro hret
    have hany := any_raised_of_returns env s.m_devices hret
    have herr : (CManager.pollCycle env s).error = none := by
      rw [CManager.pollCycle_error, hany]; rfl
    refine ⟨herr, ?_, ?_, ?_⟩
    · rw [CManager.pollCycle_guard, hany]
    · rw [CManager.pollCycle_processEvents, reportedInCycle_of_returns env _ hret,
        List.map_map]
      rfl
    · rw [CManager.UpdateThreadProc_succ, herr]
  · intro pre post e hsplit hret hraise
    have hany := any_raised_of_raises env pre post e hraise
    rw [← hsplit] at hany
    have herr : (CManager.pollCycle env s).error = some Error.device_error := by
      rw [CManager.pollCycle_error, hany]; rfl
    have hrep := reportedInCycle_of_raises env pre post e hret hraise
    rw [← hsplit] at hrep
    refine ⟨herr, ?_, ?_, ?_, ?_⟩
    · rw [CManager.pollCycle_guard, hany]
    · rw [CManager.pollCycle_processEvents, hrep, List.map_map]
      rfl
    · rw [CManager.pollCycle_handlerCalls, hrep]
    · rw [CManager.UpdateThreadProc_succ, herr]

/-- C9 as amended, at concrete inputs: with identities 10 and 20 both returning, a cycle
releases the guard; with identity 10 raising, the cycle ends in the error with the guard
held. -/
theorem pollCycle_raise_aborts_witness :
    (CManager.pollCycle mock
        (CManager.CreateJoysticks mock 5
          (mockManager [some 1, some 2] [10, 20] :
            CManager Nat (List (Option Nat)) MockDevice Nat))).state.m_updateMutex = false
    ∧ (CManager.pollCycle mock
        (CManager.CreateJoysticks mock 5
          (mockManager [some 3, some 2] [10, 20] :
            CManager Nat (List (Option Nat)) MockDevice Nat))).error
        = some Error.device_error
    ∧ (CManager.pollCycle mock
        (CManager.CreateJoysticks mock 5
          (mockManager [some 3, some 2] [10, 20] :
            CManager Nat (List (Option Nat)) MockDevice Nat))).state.m_updateMutex = true :=
  ⟨((pollCycle_raise_aborts mock
      (CManager.CreateJoysticks mock 5 (mockManager [some 1, some 2] [10, 20])) 0).1
      (by decide)).2.1,
    ((pollCycle_raise_aborts mock
      (CManager.CreateJoysticks mock 5 (mockManager [some 3, some 2] [10, 20])) 0).2.1
      [] [(20, mock.CJoystick 2 5)] (10, mock.CJoystick 3 5) (by decide) (by decide)
      (by decide)).1,
    ((pollCycle_raise_aborts mock
      (CManager.CreateJoysticks mock 5 (mockManager [some 3, some 2] [10, 20])) 0).2.1
      [] [(20, mock.CJoystick 2 5)] (10, mock.CJoystick 3 5) (by decide) (by decide)
      (by decide)).2.1⟩

/-! ## Lock discipline -/

theorem CManager.CreateJoysticksLoop_none [LinearOrder G] (env : Collaborators G P D)
    (window : Nat) (deviceGuid : G) (rest : List G) (s : CManager G P D H)
    (hopen : (env.CreateDevice s.m_directInput deviceGuid).1 = none) :
    CManager.CreateJoysticksLoop env window (deviceGuid :: rest) s
      = CManager.CreateJoysticksLoop env window rest
          { s with m_directInput := (env.CreateDevice s.m_directInput deviceGuid).2 } := by
  simp [CManager.CreateJoysticksLoop, hopen]

theorem CManager.CreateJoysticksLoop_some [LinearOrder G] (env : Collaborators G P D)
    (window : Nat) (deviceGuid : G) (rest : List G) (s : CManager G P D H) (device : Nat)
    (hopen : (env.CreateDevice s.m_directInput deviceGuid).1 = some device) :
    CManager.CreateJoysticksLoop env window (deviceGuid :: rest) s
      = CManager.CreateJoysticksLoop env window rest
          { s with
            m_directInput := (env.CreateDevice s.m_directInput deviceGuid).2
            m_devices := DeviceList.assign deviceGuid (env.CJoystick device window) s.m_devices
            m_updateMutex := false
            log := s.log ++ [Action.EnterCriticalSection, Action.access Member.m_devices true,
              Action.LeaveCriticalSection] } := by
  simp [CManager.CreateJoysticksLoop, hopen, CManager.touch, CManager.EnterCriticalSection,
    CManager.LeaveCriticalSection]

theorem CManager.CreateJoysticksLoop_discipline [LinearOrder G] (env : Collaborators G P D)
    (window : Nat) (joysticks : List G) :
    ∀ s : CManager G P D H, s.m_updateMutex = false →
      ∃ added, (CManager.CreateJoysticksLoop env window joysticks s).log = s.log ++ added
        ∧ (∀ a ∈ added, Action.underGuard a = true)
        ∧ (CManager.CreateJoysticksLoop env window joysticks s).m_updateMutex = false := by
  induction joysticks with
  | nil => intro s hs; exact ⟨[], by simp [CManager.CreateJoysticksLoop], by simp, hs⟩
  | cons g rest ih =>
    intro s hs
    cases hopen : (env.CreateDevice s.m_directInput g).1 with
    | none =>
      rw [CManager.CreateJoysticksLoop_none env window g rest s hopen]
      obtain ⟨added, h1, h2, h3⟩ := ih
        { s with m_directInput := (env.CreateDevice s.m_directInput g).2 } hs
      exact ⟨added, h1, h2, h3⟩
    | some device =>
      rw [CManager.CreateJoysticksLoop_some env window g rest s device hopen]
      obtain ⟨added, h1, h2, h3⟩ := ih
        { s with
          m_directInput := (env.CreateDevice s.m_directInput g).2
          m_devices := DeviceList.assign g (env.CJoystick device window) s.m_devices
          m_updateMutex := false
          log := s.log ++ [Action.EnterCriticalSection, Action.access Member.m_devices true,
            Action.LeaveCriticalSection] } rfl
      refine ⟨[Action.EnterCriticalSection, Action.access Member.m_devices true,
        Action.LeaveCriticalSection] ++ added, ?_, ?_, h3⟩
      · rw [h1]; simp
      · intro a ha
        rcases List.mem_append.mp ha with h | h
        · simp at h
          rcases h with h | h | h <;> rw [h] <;> rfl
        · exact h2 a h

/-- C10 as stated fails: on a manager whose guard is free and which holds identity 10,
`GetDeviceInfo` and `GetDeviceObjectInfo` look the identity up in `m_devices` with the
guard flag clear and never enter the critical section, and `RegisterInputEventHandler`
reads and increments the id counter before it enters it. -/
theorem lock_discipline_counterexample :
    (CManager.GetDeviceInfo mock 10 (some 0)
        (CManager.CreateJoysticks mock 5 (mockManager [some 1] [10] :
          CManager Nat (List (Option Nat)) MockDevice Nat))).state.log
      = [Action.EnterCriticalSection, Action.access Member.m_devices true,
          Action.LeaveCriticalSection,
          Action.access Member.m_devices false, Action.GetInfo 10]
    ∧ (CManager.GetDeviceObjectInfo mock 10 3 (some 0)
        (CManager.CreateJoysticks mock 5 (mockManager [some 1] [10] :
          CManager Nat (List (Option Nat)) MockDevice Nat))).state.log
      = [Action.EnterCriticalSection, Action.access Member.m_devices true,
          Action.LeaveCriticalSection,
          Action.access Member.m_devices false, Action.GetObjectInfo 10 3]
    ∧ (CManager.RegisterInputEventHandler 77 (mockManager [] [])).2.log
      = [Action.access Member.m_nextInputEventHandlerId false, Action.EnterCriticalSection,
          Action.access Member.m_inputEventHandlers true, Action.LeaveCriticalSection] := by
  decide

/-- C10, as amended: called with the guard free, `RegisterInputEventHandler`,
`UnregisterInputEventHandler`, `CreateKeyboard`, `CreateJoysticks` and a poll cycle make
every access to `m_devices` and `m_inputEventHandlers` between `EnterCriticalSection` and
`LeaveCriticalSection`, and the guard is free again when they return; the id counter is
read and incremented before the guard is taken; `GetDeviceInfo` and
`GetDeviceObjectInfo` look up `m_devices` without taking the guard. -/
theorem lock_discipline [LinearOrder G] (env : Collaborators G P D) (s : CManager G P D H)
    (inputEventHandler : H) (eventHandlerId window id info : Nat) (deviceId : G)
    (hfree : s.m_updateMutex = false) :
    ((CManager.RegisterInputEventHandler inputEventHandler s).2.log
        = s.log ++ [Action.access Member.m_nextInputEventHandlerId false,
            Action.EnterCriticalSection, Action.access Member.m_inputEventHandlers true,
            Action.LeaveCriticalSection]
      ∧ (CManager.RegisterInputEventHandler inputEventHandler s).2.m_updateMutex = false)
    ∧ ((CManager.UnregisterInputEventHandler eventHandlerId s).state.log
        = s.log ++ ([Action.EnterCriticalSection, Action.access Member.m_inputEventHandlers true]
            ++ (if (CManager.UnregisterInputEventHandler eventHandlerId s).error = none
                then [Action.LeaveCriticalSection] else []))
      ∧ ((CManager.UnregisterInputEventHandler eventHandlerId s).error = none →
          (CManager.UnregisterInputEventHandler eventHandlerId s).state.m_updateMutex = false))
    ∧ ((CManager.CreateKeyboard env window s).state.log
        = s.log ++ (if (CManager.CreateKeyboard env window s).error = none
            then [Action.EnterCriticalSection, Action.access Member.m_devices true,
              Action.LeaveCriticalSection] else [])
      ∧ (CManager.CreateKeyboard env window s).state.m_updateMutex = false)
    ∧ (∃ added, (CManager.CreateJoysticks env window s).log = s.log ++ added
        ∧ (∀ a ∈ added, Action.underGuard a = true)
        ∧ (CManager.CreateJoysticks env window s).m_updateMutex = false)
    ∧ (∃ added, (CManager.pollCycle env s).state.log = s.log ++ added
        ∧ (∀ a ∈ added, Action.underGuard a = true)
        ∧ ((CManager.pollCycle env s).error = none →
            (CManager.pollCycle env s).state.m_updateMutex = false))
    ∧ (∃ added, (CManager.GetDeviceInfo env deviceId (some info) s).state.log
          = s.log ++ Action.access Member.m_devices false :: added
        ∧ Action.EnterCriticalSection ∉ added
        ∧ (CManager.GetDeviceInfo env deviceId (some info) s).state.m_updateMutex = false)
    ∧ (∃ added, (CManager.GetDeviceObjectInfo env deviceId id (some info) s).state.log
          = s.log ++ Action.access Member.m_devices false :: added
        ∧ Action.EnterCriticalSection ∉ added
        ∧ (CManager.GetDeviceObjectInfo env deviceId id (some info) s).state.m_updateMutex
            = false) := by
  refine ⟨?_, ?_, ?_, ?_, ?_, ?_, ?_⟩
  · simp [CManager.RegisterInputEventHandler, CManager.touch, CManager.EnterCriticalSection,
      CManager.LeaveCriticalSection, hfree]
  · cases h : InputEventHandlerMap.find eventHandlerId s.m_inputEventHandlers <;>
      simp [CManager.UnregisterInputEventHandler, CManager.touch,
        CManager.EnterCriticalSection, CManager.LeaveCriticalSection, h]
  · cases h : (env.CreateDevice s.m_directInput env.GUID_SysKeyboard).1 <;>
      simp [CManager.CreateKeyboard, CManager.touch, CManager.EnterCriticalSection,
        CManager.LeaveCriticalSection, h, hfree]
  · exact CManager.CreateJoysticksLoop_discipline env window s.m_joystickInstances s hfree
  · refine ⟨_, CManager.pollCycle_log env s, ?_, ?_⟩
    · intro a ha
      rcases List.mem_append.mp ha with h | h
      · rcases List.mem_append.mp h with h | h
        · simp at h
          rcases h with h | h <;> rw [h] <;> rfl
        · exact deviceLoopLog_underGuard env _ _ a h
      · by_cases hr : s.m_devices.any (fun e => (env.ProcessEvents e.2).raised) = true
        · simp [hr] at h
        · simp [hr] at h
          rcases h with h | h <;> rw [h] <;> rfl
    · intro herr
      rw [CManager.pollCycle_error] at herr
      rw [CManager.pollCycle_guard]
      by_cases hr : s.m_devices.any (fun e => (env.ProcessEvents e.2).raised) = true
      · simp [hr] at herr
      · simpa using hr
  · cases h : DeviceList.find deviceId s.m_devices with
    | none =>
      exact ⟨[], by simp [CManager.GetDeviceInfo, CManager.touch, h, hfree], by simp,
        by simp [CManager.GetDeviceInfo, CManager.touch, h, hfree]⟩
    | some device =>
      exact ⟨[Action.GetInfo deviceId],
        by simp [CManager.GetDeviceInfo, CManager.touch, CManager.record, h, hfree], by simp,
        by simp [CManager.GetDeviceInfo, CManager.touch, CManager.record, h, hfree]⟩
  · cases h : DeviceList.find deviceId s.m_devices with
    | none =>
      exact ⟨[], by simp [CManager.GetDeviceObjectInfo, CManager.touch, h, hfree], by simp,
        by simp [CManager.GetDeviceObjectInfo, CManager.touch, h, hfree]⟩
    | some device =>
      exact ⟨[Action.GetObjectInfo deviceId id],
        by simp [CManager.GetDeviceObjectInfo, CManager.touch, CManager.record, h, hfree],
        by simp,
        by simp [CManager.GetDeviceObjectInfo, CManager.touch, CManager.record, h, hfree]⟩

/-- C10 as amended, at a concrete input: with identities 10 and 20 in the table and the
guard free, the poll cycle returns with the guard free. -/
theorem lock_discipline_witness :
    (CManager.pollCycle mock
        (CManager.CreateJoysticks mock 5
          (mockManager [some 1, some 2] [10, 20] :
            CManager Nat (List (Option Nat)) MockDevice Nat))).state.m_updateMutex = false :=
  let h := lock_discipline mock
    (CManager.CreateJoysticks mock 5
      (mockManager [some 1, some 2] [10, 20] : CManager Nat (List (Option Nat)) MockDevice Nat))
    77 1 5 3 0 10 (by decide)
  h.2.2.2.2.1.elim (fun _ hadded => hadded.2.2 (by decide))

/-! ## Joystick creation -/

theorem DeviceList.length_assign [LinearOrder G] (k : G) (v : D) (t : List (G × D))
    (hk : DeviceList.find k t = none) :
    (DeviceList.assign k v t).length = t.length + 1 := by
  induction t with
  | nil => rfl
  | cons e rest ih =>
    have hne : e.1 ≠ k := by
      intro h
      simp [DeviceList.find, h] at hk
    have hrest : DeviceList.find k rest = none := by
      simpa [DeviceList.find, hne] using hk
    unfold DeviceList.assign
    by_cases h1 : k < e.1
    · simp [h1]
    · by_cases h2 : e.1 < k
      · simp [h1, h2, ih hrest]
      · exact absurd (le_antisymm (not_lt.mp h1) (not_lt.mp h2)) hne

theorem openResults_cons (env : Collaborators G P D) (p : P) (g : G) (rest : List G) :
    openResults env p (g :: rest)
      = (g, (env.CreateDevice p g).1) :: openResults env (env.CreateDevice p g).2 rest := rfl

theorem openResults_mem (env : Collaborators G P D) (joysticks : List G) :
    ∀ (p : P) (g : G) (r : Option Nat), (g, r) ∈ openResults env p joysticks →
      g ∈ joysticks := by
  induction joysticks with
  | nil => intro p g r h; simp [openResults] at h
  | cons g0 rest ih =>
    intro p g r h
    rw [openResults_cons] at h
    rcases List.mem_cons.mp h with h | h
    · simp only [Prod.mk.injEq] at h
      rw [h.1]; exact List.mem_cons_self _ _
    · exact List.mem_cons_of_mem _ (ih _ g r h)

theorem openResults_tried (env : Collaborators G P D) (joysticks : List G) :
    ∀ (p : P) (g : G), g ∈ joysticks → ∃ r, (g, r) ∈ openResults env p joysticks := by
  induction joysticks with
  | nil => intro p g h; simp at h
  | cons g0 rest ih =>
    intro p g h
    rw [openResults_cons]
    rcases List.mem_cons.mp h with h | h
    · exact ⟨_, by rw [h]; exact List.mem_cons_self _ _⟩
    · obtain ⟨r, hr⟩ := ih (env.CreateDevice p g0).2 g h
      exact ⟨r, List.mem_cons_of_mem _ hr⟩

theorem openResults_length (env : Collaborators G P D) (joysticks : List G) :
    ∀ p : P, (openResults env p joysticks).length = joysticks.length := by
  induction joysticks with
  | nil => intro p; rfl
  | cons g0 rest ih => intro p; rw [openResults_cons, List.length_cons, ih, List.length_cons]

theorem CManager.CreateJoysticksLoop_ordered [LinearOrder G] (env : Collaborators G P D)
    (window : Nat) (joysticks : List G) :
    ∀ s : CManager G P D H, DeviceList.ordered s.m_devices →
      DeviceList.ordered (CManager.CreateJoysticksLoop env window joysticks s).m_devices := by
  induction joysticks with
  | nil => intro s hs; exact hs
  | cons g rest ih =>
    intro s hs
    cases hopen : (env.CreateDevice s.m_directInput g).1 with
    | none =>
      rw [CManager.CreateJoysticksLoop_none env window g rest s hopen]
      exact ih _ hs
    | some device =>
      rw [CManager.CreateJoysticksLoop_some env window g rest s device hopen]
      exact ih _ (DeviceList.assign_ordered _ _ _ hs)

theorem CManager.CreateJoysticksLoop_find_other [LinearOrder G] (env : Collaborators G P D)
    (window : Nat) (joysticks : List G) (g : G) (hg : g ∉ joysticks) :
    ∀ s : CManager G P D H,
      DeviceList.find g (CManager.CreateJoysticksLoop env window joysticks s).m_devices
        = DeviceList.find g s.m_devices := by
  induction joysticks with
  | nil => intro s; rfl
  | cons g0 rest ih =>
    intro s
    have hne : g ≠ g0 := fun h => hg (by rw [h]; exact List.mem_cons_self _ _)
    have hrest : g ∉ rest := fun h => hg (List.mem_cons_of_mem _ h)
    cases hopen : (env.CreateDevice s.m_directInput g0).1 with
    | none =>
      rw [CManager.CreateJoysticksLoop_none env window g0 rest s hopen, ih hrest]
    | some device =>
      rw [CManager.CreateJoysticksLoop_some env window g0 rest s device hopen, ih hrest]
      exact DeviceList.find_assign_ne _ _ _ _ hne

theorem CManager.CreateJoysticksLoop_find_tried [LinearOrder G] (env : Collaborators G P D)
    (window : Nat) (joysticks : List G) (hnodup : joysticks.Nodup) :
    ∀ (s : CManager G P D H) (g : G) (r : Option Nat),
      (g, r) ∈ openResults env s.m_directInput joysticks →
      DeviceList.find g (CManager.CreateJoysticksLoop env window joysticks s).m_devices
        = match r with
          | some device => some (env.CJoystick device window)
          | none => DeviceList.find g s.m_devices := by
  induction joysticks with
  | nil => intro s g r h; simp [openResults] at h
  | cons g0 rest ih =>
    intro s g r h
    rw [List.nodup_cons] at hnodup
    rw [openResults_cons] at h
    rcases List.mem_cons.mp h with h | h
    · simp only [Prod.mk.injEq] at h
      obtain ⟨hg, hr⟩ := h
      subst hg
      cases hopen : (env.CreateDevice s.m_directInput g).1 with
      | none =>
        rw [CManager.CreateJoysticksLoop_none env window g rest s hopen,
          CManager.CreateJoysticksLoop_find_other env window rest g hnodup.1, hr, hopen]
      | some device =>
        rw [CManager.CreateJoysticksLoop_some env window g rest s device hopen,
          CManager.CreateJoysticksLoop_find_other env window rest g hnodup.1, hr, hopen]
        exact DeviceList.find_assign_self _ _ _
    · have hmem := openResults_mem env rest _ g r h
      have hne : g ≠ g0 := fun heq => hnodup.1 (heq ▸ hmem)
      cases hopen : (env.CreateDevice s.m_directInput g0).1 with
      | none =>
        rw [CManager.CreateJoysticksLoop_none env window g0 rest s hopen]
        exact ih hnodup.2 _ g r h
      | some device =>
        rw [CManager.CreateJoysticksLoop_some env window g0 rest s device hopen]
        rw [ih hnodup.2 _ g r h]
        cases r with
        | none => exact DeviceList.find_assign_ne _ _ _ _ hne
        | some d => rfl

theorem CManager.CreateJoysticksLoop_length [LinearOrder G] (env : Collaborators G P D)
    (window : Nat) (joysticks : List G) (hnodup : joysticks.Nodup) :
    ∀ s : CManager G P D H, (∀ g ∈ joysticks, DeviceList.find g s.m_devices = none) →
      (CManager.CreateJoysticksLoop env window joysticks s).m_devices.length
        = s.m_devices.length
          + ((openResults env s.m_directInput joysticks).filter
              (fun x => x.2.isSome)).length := by
  induction joysticks with
  | nil => intro s _; rfl
  | cons g0 rest ih =>
    intro s hfresh
    rw [List.nodup_cons] at hnodup
    rw [openResults_cons]
    have h0 := hfresh g0 (List.mem_cons_self _ _)
    cases hopen : (env.CreateDevice s.m_directInput g0).1 with
    | none =>
      rw [CManager.CreateJoysticksLoop_none env window g0 rest s hopen,
        ih hnodup.2 { s with m_directInput := (env.CreateDevice s.m_directInput g0).2 }
          (fun g hg => hfresh g (List.mem_cons_of_mem _ hg))]
      simp
    | some device =>
      rw [CManager.CreateJoysticksLoop_some env window g0 rest s device hopen,
        ih hnodup.2
          { s with
            m_directInput := (env.CreateDevice s.m_directInput g0).2
            m_devices := DeviceList.assign g0 (env.CJoystick device window) s.m_devices
            m_updateMutex := false
            log := s.log ++ [Action.EnterCriticalSection, Action.access Member.m_devices true,
              Action.LeaveCriticalSection] }
          (fun g hg => by
            have hne : g ≠ g0 := fun heq => hnodup.1 (heq ▸ hg)
            rw [DeviceList.find_assign_ne _ _ _ _ hne]
            exact hfresh g (List.mem_cons_of_mem _ hg))]
      simp only [DeviceList.length_assign _ _ _ h0, List.filter_cons, Option.isSome_some,
        if_true, List.length_cons]
      omega

theorem CManager.CreateJoysticksLoop_filter [LinearOrder G] (env : Collaborators G P D)
    (window : Nat) (q : G → Bool) (joysticks : List G) (hq : ∀ g ∈ joysticks, q g = false) :
    ∀ s : CManager G P D H,
      (CManager.CreateJoysticksLoop env window joysticks s).m_devices.filter (fun e => q e.1)
        = s.m_devices.filter (fun e => q e.1) := by
  induction joysticks with
  | nil => intro s; rfl
  | cons g0 rest ih =>
    intro s
    have hrest := ih (fun g hg => hq g (List.mem_cons_of_mem _ hg))
    cases hopen : (env.CreateDevice s.m_directInput g0).1 with
    | none =>
      rw [CManager.CreateJoysticksLoop_none env window g0 rest s hopen, hrest]
    | some device =>
      rw [CManager.CreateJoysticksLoop_some env window g0 rest s device hopen, hrest]
      exact DeviceList.assign_filter_key q _ _ _ (hq g0 (List.mem_cons_self _ _))

/-- C5: let the enumerated identities be pairwise distinct and absent from the (ordered)
device table.  After `CreateJoysticks` the table holds, for every identity whose
`CreateDevice` succeeded, the joystick built from the opened handle; it holds no entry for
an identity whose `CreateDevice` failed; under every other identity it holds what it held
before; so an identity has been added exactly when it is an enumerated identity that the
provider opened, and the number of entries under enumerated identities is the number of
successful opens.  When exactly one of the `N` opens fails, that number is `N - 1`. -/
theorem createJoysticks_adds_opened [LinearOrder G] (env : Collaborators G P D) (window : Nat)
    (s : CManager G P D H)
    (hordered : DeviceList.ordered s.m_devices)
    (hnodup : s.m_joystickInstances.Nodup)
    (hfresh : ∀ g ∈ s.m_joystickInstances, DeviceList.find g s.m_devices = none) :
    (∀ g device, (g, some device) ∈ openResults env s.m_directInput s.m_joystickInstances →
        DeviceList.find g (CManager.CreateJoysticks env window s).m_devices
          = some (env.CJoystick device window))
    ∧ (∀ g, (g, none) ∈ openResults env s.m_directInput s.m_joystickInstances →
        DeviceList.find g (CManager.CreateJoysticks env window s).m_devices = none)
    ∧ (∀ g, g ∉ s.m_joystickInstances →
        DeviceList.find g (CManager.CreateJoysticks env window s).m_devices
          = DeviceList.find g s.m_devices)
    ∧ (∀ g, DeviceList.find g s.m_devices = none →
        ((DeviceList.find g (CManager.CreateJoysticks env window s).m_devices).isSome
          ↔ ∃ device,
              (g, some device) ∈ openResults env s.m_directInput s.m_joystickInstances))
    ∧ ((CManager.CreateJoysticks env window s).m_devices.filter
          (fun e => decide (e.1 ∈ s.m_joystickInstances))).length
        = ((openResults env s.m_directInput s.m_joystickInstances).filter
            (fun x => x.2.isSome)).length
    ∧ (((openResults env s.m_directInput s.m_joystickInstances).filter
            (fun x => !x.2.isSome)).length = 1 →
        ((CManager.CreateJoysticks env window s).m_devices.filter
            (fun e => decide (e.1 ∈ s.m_joystickInstances))).length
          = s.m_joystickInstances.length - 1
        ∧ (CManager.CreateJoysticks env window s).m_devices.length
          = s.m_devices.length + (s.m_joystickInstances.length - 1))
    ∧ DeviceList.ordered (CManager.CreateJoysticks env window s).m_devices := by
  have htried := CManager.CreateJoysticksLoop_find_tried env window s.m_joystickInstances
    hnodup s
  have hother : ∀ g, g ∉ s.m_joystickInstances →
      DeviceList.find g (CManager.CreateJoysticks env window s).m_devices
        = DeviceList.find g s.m_devices :=
    fun g hg => CManager.CreateJoysticksLoop_find_other env window s.m_joystickInstances g hg s
  have hlen := CManager.CreateJoysticksLoop_length env window s.m_joystickInstances hnodup s
    hfresh
  have hkeep := CManager.CreateJoysticksLoop_filter env window
    (fun g => !decide (g ∈ s.m_joystickInstances)) s.m_joystickInstances (by simp) s
  have hbefore : s.m_devices.filter (fun e => !decide (e.1 ∈ s.m_joystickInstances))
      = s.m_devices := by
    apply List.filter_eq_self.mpr
    intro e he
    have hne : e.1 ∉ s.m_joystickInstances := by
      intro hmem
      exact (DeviceList.find_eq_none_iff e.1 s.m_devices).mp (hfresh e.1 hmem) e he rfl
    simp [hne]
  have hcount : ((CManager.CreateJoysticks env window s).m_devices.filter
        (fun e => decide (e.1 ∈ s.m_joystickInstances))).length
      = ((openResults env s.m_directInput s.m_joystickInstances).filter
          (fun x => x.2.isSome)).length := by
    have hsplit := List.length_eq_length_filter_add
      (l := (CManager.CreateJoysticks env window s).m_devices)
      (fun e => decide (e.1 ∈ s.m_joystickInstances))
    have hkeep2 : ((CManager.CreateJoysticks env window s).m_devices.filter
        (fun e => !decide (e.1 ∈ s.m_joystickInstances))).length = s.m_devices.length := by
      unfold CManager.CreateJoysticks
      rw [hkeep, hbefore]
    unfold CManager.CreateJoysticks at hsplit hkeep2 ⊢
    omega
  have hfound : ∀ g, (g, none) ∈ openResults env s.m_directInput s.m_joystickInstances →
      DeviceList.find g (CManager.CreateJoysticks env window s).m_devices = none := by
    intro g hg
    have h := htried g none hg
    simp only at h
    unfold CManager.CreateJoysticks
    rw [h]
    exact hfresh g (openResults_mem env _ _ g none hg)
  refine ⟨fun g device hg => htried g (some device) hg, hfound, hother, ?_, hcount, ?_,
    CManager.CreateJoysticksLoop_ordered env window s.m_joystickInstances s hordered⟩
  · intro g hg
    constructor
    · intro hsome
      by_cases hmem : g ∈ s.m_joystickInstances
      · obtain ⟨r, hr⟩ := openResults_tried env s.m_joystickInstances s.m_directInput g hmem
        cases r with
        | none => rw [hfound g hr] at hsome; simp at hsome
        | some device => exact ⟨device, hr⟩
      · rw [hother g hmem, hg] at hsome
        simp at hsome
    · rintro ⟨device, hdevice⟩
      have h := htried g (some device) hdevice
      unfold CManager.CreateJoysticks
      rw [h]
      rfl
  · intro hone
    have hsplit := List.length_eq_length_filter_add
      (l := openResults env s.m_directInput s.m_joystickInstances) (fun x => x.2.isSome)
    rw [openResults_length] at hsplit
    unfold CManager.CreateJoysticks at hcount ⊢
    constructor
    · omega
    · omega

/-- C5, at a concrete input: three identities are enumerated, the provider fails to open
the second; the table ends up with the two others. -/
theorem createJoysticks_adds_opened_witness :
    (CManager.CreateJoysticks mock 5
        (mockManager [some 1, none, some 2] [10, 15, 20] :
          CManager Nat (List (Option Nat)) MockDevice Nat)).m_devices.map Prod.fst = [10, 20]
    ∧ ((CManager.CreateJoysticks mock 5
        (mockManager [some 1, none, some 2] [10, 15, 20] :
          CManager Nat (List (Option Nat)) MockDevice Nat)).m_devices.filter
          (fun e => decide (e.1 ∈ [10, 15, 20]))).length = 3 - 1 :=
  ⟨by decide,
    ((createJoysticks_adds_opened mock 5
      (mockManager [some 1, none, some 2] [10, 15, 20] :
        CManager Nat (List (Option Nat)) MockDevice Nat)
      (by decide) (by decide) (by decide)).2.2.2.2.2.1 (by decide)).1⟩

end Framework.DirectInput
